import Mathlib

/-!
The ray-tracing renderer `vk_rt_simple`: shader binding table, acceleration
structures, pipeline, descriptor pool, render loop and teardown.

A shallow embedding of `src/main.c`.  Setup code is embedded as pure functions over
the values it reads (device properties, the loaded model).  The render loop and the
teardown are embedded as functions from a loop state and the environment's answers
for one iteration (polled window events, UI clicks, results returned by the driver)
to the next loop state and the list of observable calls made, in program order.

Machine integers are naturals with an explicit `% 2 ^ 64` (`uint64_t`, `size_t`) or
`% 2 ^ 32` (`uint32_t`).
-/

namespace VkRtSimple

/-! ## Shader binding table (main.c 601-640) -/

/-- Line 603-604:
`(sbt_handle_size + sbt_handle_alignment - 1) & ~(sbt_handle_alignment - 1)` on
`uint64_t`.  Subtracting one is adding `2 ^ 64 - 1` modulo `2 ^ 64`, and the
complement of a 64-bit value `v` is `2 ^ 64 - 1 - v`. -/
def sbt_handle_size_aligned (sbt_handle_size sbt_handle_alignment : Nat) : Nat :=
  ((sbt_handle_size + sbt_handle_alignment + (2 ^ 64 - 1)) % 2 ^ 64) &&&
    (2 ^ 64 - 1 - (sbt_handle_alignment + (2 ^ 64 - 1)) % 2 ^ 64)

/-- Line 605: `sbt_size = 3 * sbt_handle_size_aligned` on `uint64_t`. -/
def sbt_size (sbt_handle_size sbt_handle_alignment : Nat) : Nat :=
  (3 * sbt_handle_size_aligned sbt_handle_size sbt_handle_alignment) % 2 ^ 64

/-- Overwrite `bytes.length` bytes of `buf` starting at byte offset `off`. -/
def write_bytes (buf : List Nat) (off : Nat) (bytes : List Nat) : List Nat :=
  buf.take off ++ bytes ++ buf.drop (off + bytes.length)

/-- Read `size` bytes of `buf` starting at byte offset `off`: what
`vkrt_allocate_memory(device, allocator, size, buf + off, usage)` copies into the new
memory block. -/
def read_bytes (buf : List Nat) (off size : Nat) : List Nat :=
  (buf.drop off).take size

/-- The Vulkan call `vkGetRayTracingShaderGroupHandlesKHR(device, pipeline, 0, 3,
dataSize, pData)` of line 619: it writes the handles of groups 0, 1, 2 into `pData`
tightly packed, group `k` at byte offset `k * handle_size`.  `handle k` is the
pipeline's handle of group `k`. -/
def get_shader_group_handles (handle : Nat → List Nat) (handle_size : Nat)
    (pData : List Nat) : List Nat :=
  write_bytes
    (write_bytes
      (write_bytes pData (0 * handle_size) ((handle 0).take handle_size))
      (1 * handle_size) ((handle 1).take handle_size))
    (2 * handle_size) ((handle 2).take handle_size)

/-- Lines 616-620: `sbt_results = calloc(sbt_size, 1)` followed by the group-handle
query into it. -/
def sbt_results (handle : Nat → List Nat) (sbt_handle_size sbt_handle_alignment : Nat) :
    List Nat :=
  get_shader_group_handles handle sbt_handle_size
    (List.replicate (sbt_size sbt_handle_size sbt_handle_alignment) 0)

/-- Lines 623-624: contents of `sbt_rgen_buffer`, `sbt_handle_size` bytes read at
`sbt_results`. -/
def sbt_rgen_buffer (handle : Nat → List Nat) (sbt_handle_size sbt_handle_alignment : Nat) :
    List Nat :=
  read_bytes (sbt_results handle sbt_handle_size sbt_handle_alignment) 0 sbt_handle_size

/-- Lines 629-630: contents of `sbt_rmiss_buffer`, `sbt_handle_size` bytes read at
`sbt_results + sbt_handle_size_aligned`. -/
def sbt_rmiss_buffer (handle : Nat → List Nat) (sbt_handle_size sbt_handle_alignment : Nat) :
    List Nat :=
  read_bytes (sbt_results handle sbt_handle_size sbt_handle_alignment)
    (sbt_handle_size_aligned sbt_handle_size sbt_handle_alignment) sbt_handle_size

/-- Lines 635-636: contents of `sbt_rchit_buffer`, `sbt_handle_size` bytes read at
`sbt_results + sbt_handle_size_aligned * 2`. -/
def sbt_rchit_buffer (handle : Nat → List Nat) (sbt_handle_size sbt_handle_alignment : Nat) :
    List Nat :=
  read_bytes (sbt_results handle sbt_handle_size sbt_handle_alignment)
    ((sbt_handle_size_aligned sbt_handle_size sbt_handle_alignment * 2) % 2 ^ 64)
    sbt_handle_size

/-- The bytes uploaded into SBT region `k`: 0 is ray-gen, 1 is miss, 2 is closest-hit. -/
def sbt_region (handle : Nat → List Nat) (sbt_handle_size sbt_handle_alignment : Nat) :
    Nat → List Nat
  | 0 => sbt_rgen_buffer handle sbt_handle_size sbt_handle_alignment
  | 1 => sbt_rmiss_buffer handle sbt_handle_size sbt_handle_alignment
  | _ => sbt_rchit_buffer handle sbt_handle_size sbt_handle_alignment

/-- A pipeline whose group `k` has the handle made of `size` bytes all equal to `k + 1`. -/
def sample_handle (size : Nat) (k : Nat) : List Nat :=
  List.replicate size (k + 1)

/-! ## Scene geometry and acceleration structures (main.c 401-462)

`vkrt_model`, `vkrt_mesh`, `vkrt_primitive` and `vkrt_memory` are declared in
`vk_rt_mesh.h`; the structures below carry the fields `main` reads.  C arrays are
index functions together with their count field. -/

/-- A device memory block: the fields of `vkrt_memory` that `main` reads. -/
structure vkrt_memory where
  buffer : Nat
  device_address : Nat
deriving DecidableEq, Repr

/-- One primitive group of a mesh. -/
structure vkrt_primitive where
  vertex_buffer : vkrt_memory
  index_buffer : vkrt_memory
  material_index : Nat
  primitive_count : Nat
  vertex_count : Nat
deriving DecidableEq, Repr

/-- One mesh: `primitives[j]` for `j < primitive_count`. -/
structure vkrt_mesh where
  primitive_count : Nat
  primitives : Nat → vkrt_primitive
  transform_buffer : vkrt_memory

/-- The loaded model: `meshes[i]` for `i < mesh_count`. -/
structure vkrt_model where
  mesh_count : Nat
  meshes : Nat → vkrt_mesh
  texture_count : Nat

/-- The counts are 32-bit fields (the loops over them use `uint32_t` counters). -/
def model_counts_32bit (model : vkrt_model) : Prop :=
  model.mesh_count < 2 ^ 32 ∧ ∀ i, i < model.mesh_count → (model.meshes i).primitive_count < 2 ^ 32

/-- Lines 404-407: `geom_count += model.meshes[i].primitive_count` on `size_t`. -/
def geom_count (model : vkrt_model) : Nat :=
  (List.range model.mesh_count).foldl
    (fun acc i => (acc + (model.meshes i).primitive_count) % 2 ^ 64) 0

/-- Lines 161-165. -/
structure geometry_node where
  vertex_buffer_address : Nat
  index_buffer_address : Nat
  material_index : Nat
deriving DecidableEq, Repr

/-- Lines 411-421: the writes `geom_nodes[idx++] = ...`, as the final `idx` and the
list of (index written, record). -/
def geom_nodes_loop (model : vkrt_model) : Nat × List (Nat × geometry_node) :=
  (List.range model.mesh_count).foldl
    (fun st i =>
      let mesh := model.meshes i
      (List.range mesh.primitive_count).foldl
        (fun st j =>
          ((st.1 + 1) % 2 ^ 64,
            st.2 ++ [(st.1,
              { vertex_buffer_address := (mesh.primitives j).vertex_buffer.device_address,
                index_buffer_address := (mesh.primitives j).index_buffer.device_address,
                material_index := (mesh.primitives j).material_index })]))
        st)
    (0, [])

/-- The arguments of one `vkrt_create_blas3` call (lines 443-446). -/
structure blas_build where
  vertex_buffer : vkrt_memory
  index_buffer : vkrt_memory
  primitive_count : Nat
  vertex_count : Nat
  transform_buffer : vkrt_memory
deriving DecidableEq, Repr

/-- Lines 437-448: the writes `blases[idx++] = vkrt_create_blas3(...)`, as the final
`idx` and the list of (index written, build call), one entry per BLAS built. -/
def blases_loop (model : vkrt_model) : Nat × List (Nat × blas_build) :=
  (List.range model.mesh_count).foldl
    (fun st i =>
      let mesh := model.meshes i
      let transform_buffer := mesh.transform_buffer
      (List.range mesh.primitive_count).foldl
        (fun st j =>
          let p := mesh.primitives j
          ((st.1 + 1) % 2 ^ 64,
            st.2 ++ [(st.1,
              { vertex_buffer := p.vertex_buffer,
                index_buffer := p.index_buffer,
                primitive_count := p.primitive_count,
                vertex_count := p.vertex_count,
                transform_buffer := transform_buffer })]))
        st)
    (0, [])

/-- The acceleration-structure builds issued during setup. -/
inductive as_build where
  | create_blas3 (idx : Nat) (args : blas_build)
  | create_tlas (instance_count : Nat)
deriving DecidableEq, Repr

/-- Lines 435-462: every BLAS build of the loop, then the single
`vkrt_create_tlas(..., geom_count, blases, transform)`. -/
def build_acceleration_structures (model : vkrt_model) : List as_build :=
  (blases_loop model).2.map (fun w => as_build.create_blas3 w.1 w.2) ++
    [as_build.create_tlas (geom_count model)]

/-- Is this build a BLAS build? -/
def as_build.is_blas : as_build → Bool
  | .create_blas3 _ _ => true
  | .create_tlas _ => false

/-- Sum of `primitive_count` over all meshes of the model. -/
def total_primitives (model : vkrt_model) : Nat :=
  ((List.range model.mesh_count).map (fun i => (model.meshes i).primitive_count)).sum

/-- A buffer whose handle and device address are both `n`. -/
def sample_memory (n : Nat) : vkrt_memory :=
  { buffer := n, device_address := n }

/-- A scene of two meshes with one primitive group each. -/
def sample_model : vkrt_model :=
  { mesh_count := 2
    meshes := fun i =>
      { primitive_count := 1
        primitives := fun j =>
          { vertex_buffer := sample_memory (10 * i + j)
            index_buffer := sample_memory (100 + 10 * i + j)
            material_index := i
            primitive_count := 12
            vertex_count := 8 }
        transform_buffer := sample_memory (200 + i) }
    texture_count := 0 }

/-! ## Ray-tracing pipeline (main.c 530-592) -/

/-- `VK_SHADER_UNUSED_KHR` is `(~0U)` in the Vulkan headers. -/
def VK_SHADER_UNUSED_KHR : Nat := 2 ^ 32 - 1

/-- The shader stage bits used by `main`. -/
inductive VkShaderStageFlagBits where
  | VK_SHADER_STAGE_RAYGEN_BIT_KHR
  | VK_SHADER_STAGE_CLOSEST_HIT_BIT_KHR
  | VK_SHADER_STAGE_MISS_BIT_KHR
deriving DecidableEq, Repr

/-- The shader modules loaded at lines 523-525. -/
inductive ShaderModule where
  | raygen_sh
  | closest_hit_sh
  | miss_sh
deriving DecidableEq, Repr

/-- Shader group types of the Vulkan headers. -/
inductive VkRayTracingShaderGroupTypeKHR where
  | VK_RAY_TRACING_SHADER_GROUP_TYPE_GENERAL_KHR
  | VK_RAY_TRACING_SHADER_GROUP_TYPE_TRIANGLES_HIT_GROUP_KHR
  | VK_RAY_TRACING_SHADER_GROUP_TYPE_PROCEDURAL_HIT_GROUP_KHR
deriving DecidableEq, Repr

/-- The fields of `VkPipelineShaderStageCreateInfo` that `main` sets. -/
structure VkPipelineShaderStageCreateInfo where
  stage : VkShaderStageFlagBits
  module : ShaderModule
  pName : String
deriving DecidableEq, Repr

/-- The fields of `VkRayTracingShaderGroupCreateInfoKHR` that `main` sets. -/
structure VkRayTracingShaderGroupCreateInfoKHR where
  type : VkRayTracingShaderGroupTypeKHR
  generalShader : Nat
  closestHitShader : Nat
  anyHitShader : Nat
  intersectionShader : Nat
deriving DecidableEq, Repr

/-- The fields of `VkRayTracingPipelineCreateInfoKHR` that `main` sets. -/
structure VkRayTracingPipelineCreateInfoKHR where
  stageCount : Nat
  pStages : List VkPipelineShaderStageCreateInfo
  groupCount : Nat
  pGroups : List VkRayTracingShaderGroupCreateInfoKHR
  maxPipelineRayRecursionDepth : Nat
deriving DecidableEq, Repr

/-- Lines 530-535. -/
def rgen_info : VkPipelineShaderStageCreateInfo :=
  { stage := .VK_SHADER_STAGE_RAYGEN_BIT_KHR, module := .raygen_sh, pName := "main" }

/-- Lines 537-542. -/
def rchit_info : VkPipelineShaderStageCreateInfo :=
  { stage := .VK_SHADER_STAGE_CLOSEST_HIT_BIT_KHR, module := .closest_hit_sh, pName := "main" }

/-- Lines 544-549. -/
def rmiss_info : VkPipelineShaderStageCreateInfo :=
  { stage := .VK_SHADER_STAGE_MISS_BIT_KHR, module := .miss_sh, pName := "main" }

/-- Line 551. -/
def stages : List VkPipelineShaderStageCreateInfo :=
  [rgen_info, rmiss_info, rchit_info]

/-- Lines 553-560. -/
def rgen_group : VkRayTracingShaderGroupCreateInfoKHR :=
  { type := .VK_RAY_TRACING_SHADER_GROUP_TYPE_GENERAL_KHR
    generalShader := 0
    closestHitShader := VK_SHADER_UNUSED_KHR
    anyHitShader := VK_SHADER_UNUSED_KHR
    intersectionShader := VK_SHADER_UNUSED_KHR }

/-- Lines 562-569. -/
def rmiss_group : VkRayTracingShaderGroupCreateInfoKHR :=
  { type := .VK_RAY_TRACING_SHADER_GROUP_TYPE_GENERAL_KHR
    generalShader := 1
    closestHitShader := VK_SHADER_UNUSED_KHR
    anyHitShader := VK_SHADER_UNUSED_KHR
    intersectionShader := VK_SHADER_UNUSED_KHR }

/-- Lines 571-578. -/
def rhit_group : VkRayTracingShaderGroupCreateInfoKHR :=
  { type := .VK_RAY_TRACING_SHADER_GROUP_TYPE_TRIANGLES_HIT_GROUP_KHR
    generalShader := VK_SHADER_UNUSED_KHR
    closestHitShader := 2
    anyHitShader := VK_SHADER_UNUSED_KHR
    intersectionShader := VK_SHADER_UNUSED_KHR }

/-- Lines 580-582. -/
def shader_groups : List VkRayTracingShaderGroupCreateInfoKHR :=
  [rgen_group, rmiss_group, rhit_group]

/-- Lines 584-592. -/
def pipeline_info : VkRayTracingPipelineCreateInfoKHR :=
  { stageCount := 3
    pStages := stages
    groupCount := 3
    pGroups := shader_groups
    maxPipelineRayRecursionDepth := 2 }

/-- The stage bit of the stage a shader index of a group refers to, if the index is
inside the stage array handed to the pipeline. -/
def stage_of (info : VkRayTracingPipelineCreateInfoKHR) (shader : Nat) :
    Option VkShaderStageFlagBits :=
  ((info.pStages.take info.stageCount).get? shader).map (fun st => st.stage)

/-! ## Render loop and teardown (main.c 642-867)

`vkw_frame_cmd_begin`, `vkw_frame_end_and_submit` live in `vk_wrap.h`; the driver, the
window system and the UI library are outside the program.  Their answers are the
fields of `frame_input`, one record per loop iteration. -/

/-- Line 13. -/
def FRAME_OVERLAP : Nat := 2

/-- Result codes a swapchain call can return. -/
inductive VkResult where
  | VK_SUCCESS
  | VK_NOT_READY
  | VK_TIMEOUT
  | VK_SUBOPTIMAL_KHR
  | VK_ERROR_OUT_OF_DATE_KHR
  | VK_ERROR_DEVICE_LOST
  | VK_ERROR_SURFACE_LOST_KHR
deriving DecidableEq, Repr

/-- The image layouts used by `main`. -/
inductive VkImageLayout where
  | VK_IMAGE_LAYOUT_UNDEFINED
  | VK_IMAGE_LAYOUT_GENERAL
  | VK_IMAGE_LAYOUT_TRANSFER_SRC_OPTIMAL
  | VK_IMAGE_LAYOUT_TRANSFER_DST_OPTIMAL
  | VK_IMAGE_LAYOUT_COLOR_ATTACHMENT_OPTIMAL
  | VK_IMAGE_LAYOUT_PRESENT_SRC_KHR
deriving DecidableEq, Repr

/-- The images commands refer to: the ray-tracing output image, or image `index` of
swapchain object `swapchain`. -/
inductive Image where
  | draw_image
  | swapchain_image (swapchain index : Nat)
deriving DecidableEq, Repr

/-- A command recorded into a frame slot's command buffer (lines 753-807). -/
inductive Cmd where
  | transition_image (image : Image) (old_layout new_layout : VkImageLayout)
  | bind_pipeline
  | bind_descriptor_sets
  | push_constants (frame_no : Nat)
  | trace_rays (width height depth : Nat)
  | copy_image_to_image (src dst : Image)
  | begin_rendering (attachment : Image) (image_layout : VkImageLayout)
  | imgui_render_draw_data
  | end_rendering
deriving DecidableEq, Repr

/-- An acceleration structure held by `main`. -/
inductive AccelStruct where
  | tlas
  | blas (i : Nat)
deriving DecidableEq, Repr

/-- A `vkrt_memory` block held by `main`. -/
inductive MemoryBlock where
  | sbt_rgen_buffer
  | sbt_rmiss_buffer
  | sbt_rchit_buffer
  | geometry_nodes
deriving DecidableEq, Repr

/-- The observable calls of the render loop and of the teardown. -/
inductive Event where
  | device_wait_idle
  | destroy_swapchain (swapchain : Nat)
  | build_swapchain (swapchain width height : Nat)
  | sdl_get_window_size (width height : Nat)
  | wait_for_fence (slot : Nat) (signalled : Bool)
  | reset_fence (slot : Nat)
  | begin_command_buffer (slot : Nat)
  | acquire_next_image (swapchain slot : Nat) (res : VkResult) (image_index : Nat)
  | record (slot : Nat) (cmd : Cmd)
  | end_command_buffer (slot : Nat)
  | queue_submit (slot : Nat)
  | queue_present (swapchain slot image_index : Nat) (res : VkResult)
  | destroy_as (a : AccelStruct)
  | free_blases
  | memory_free (m : MemoryBlock)
  | free_model
  | destroy_pipeline
  | destroy_pipeline_layout
  | destroy_descriptor_set_layout
  | frame_data_destroy (slot : Nat)
  | imgui_destroy_fonts_texture
  | destroy_imgui_pool
  | imgui_shutdown
  | immediate_submit_buffer_destroy
  | image_destroy
  | descriptor_allocator_destroy
  | vma_destroy_allocator
  | destroy_surface
  | destroy_device
  | destroy_debug_utils_messenger
  | destroy_instance
  | sdl_destroy_window
  | sdl_vulkan_unload_library
  | sdl_quit
deriving DecidableEq, Repr

/-- A window-system event returned by `SDL_PollEvent`; a resized event carries the
size `SDL_GetWindowSize` then reports. -/
inductive SDL_Event where
  | SDL_QUIT
  | SDL_WINDOWEVENT_RESIZED (width height : Nat)
  | SDL_WINDOWEVENT_OTHER
  | SDL_OTHER
deriving DecidableEq, Repr

/-- What the environment answers during one loop iteration. -/
structure frame_input where
  /-- Events `SDL_PollEvent` returns, in order (lines 694-704).  -/
  events : List SDL_Event
  /-- Result of `igBegin("background", ...)` (line 713).  -/
  ui_visible : Bool
  /-- Whether the `reset` checkbox was clicked this frame (line 720).  -/
  reset_clicked : Bool
  /-- Whether the fence wait inside `vkw_frame_cmd_begin` saw the fence signalled
  before `timeout` (line 741).  -/
  fence_signalled : Bool
  /-- Result of `vkAcquireNextImageKHR` and the image index it returns (line 745).  -/
  acquire_result : VkResult
  image_index : Nat
  /-- Result of `vkQueuePresentKHR` (line 820).  -/
  present_result : VkResult
deriving DecidableEq, Repr

/-- The variables of `main` the render loop reads and writes.  `swapchain` names the
current swapchain object and `swapchains_built` counts the objects built so far, so
that every `build_swapchain` yields a new name.  `aborted` is set when the process
is terminated inside the loop. -/
structure loop_state where
  done : Bool
  frame_number : Nat
  swapchain_resize : Bool
  reset_accumulation : Bool
  swapchain : Nat
  swapchains_built : Nat
  window_width : Nat
  window_height : Nat
  aborted : Bool
deriving DecidableEq, Repr

/-- Lines 10-11 and 303, 669-675: the state on entry to the loop, holding the swapchain
object built during setup. -/
def initial_state : loop_state :=
  { done := false
    frame_number := 0
    swapchain_resize := false
    reset_accumulation := false
    swapchain := 0
    swapchains_built := 1
    window_width := 1280
    window_height := 720
    aborted := false }

/-- Lines 305-306: the extent of `draw_image`, the window size at startup. -/
def draw_extent : Nat × Nat := (1280, 720)

/-- Lines 679-682. -/
def reset_phase (s : loop_state) : loop_state :=
  if s.reset_accumulation then { s with frame_number := 0, reset_accumulation := false } else s

/-- Lines 686-691: wait idle, destroy the current swapchain, build a new one from the
current window size (`build_swapchain`, lines 167-187). -/
def resize_phase (s : loop_state) : loop_state × List Event :=
  if s.swapchain_resize then
    ({ s with
        swapchain := s.swapchains_built
        swapchains_built := s.swapchains_built + 1
        swapchain_resize := false },
      [Event.device_wait_idle,
       Event.destroy_swapchain s.swapchain,
       Event.build_swapchain s.swapchains_built s.window_width s.window_height])
  else (s, [])

/-- Lines 696-703: the `switch` on one polled event. -/
def handle_event (s : loop_state) : SDL_Event → loop_state × List Event
  | .SDL_QUIT => ({ s with done := true }, [])
  | .SDL_WINDOWEVENT_RESIZED w h =>
    ({ s with window_width := w, window_height := h }, [Event.sdl_get_window_size w h])
  | .SDL_WINDOWEVENT_OTHER => (s, [])
  | .SDL_OTHER => (s, [])

/-- Lines 693-704: `while (SDL_PollEvent(&e))`. -/
def poll_events (s : loop_state) : List SDL_Event → loop_state × List Event
  | [] => (s, [])
  | e :: es =>
    let r := handle_event s e
    let r2 := poll_events r.1 es
    (r2.1, r.2 ++ r2.2)

/-- Lines 709-724: the only program variable the UI block writes that the loop control
reads is `reset_accumulation`, toggled by `igCheckbox` when clicked. -/
def imgui_phase (s : loop_state) (inp : frame_input) : loop_state :=
  if inp.ui_visible && inp.reset_clicked then
    { s with reset_accumulation := !s.reset_accumulation }
  else s

/-- Modelled from the spec: `vkw_frame_cmd_begin` (vk_wrap.h) is not part of the source
given; the spec describes it as: wait on the slot's fence, bounded by `timeout`, expiry
being fatal; then reset the fence and the command-recording context.  The first
component tells whether the call returned. -/
def vkw_frame_cmd_begin (slot : Nat) (fence_signalled : Bool) : Bool × List Event :=
  if fence_signalled then
    (true, [Event.wait_for_fence slot true, Event.reset_fence slot,
            Event.begin_command_buffer slot])
  else (false, [Event.wait_for_fence slot false])

/-- Modelled from the spec: `vkw_frame_end_and_submit` (vk_wrap.h) is not part of the
source given; the spec describes it as: close recording, then submit, waiting on the
slot's image-acquired semaphore and signalling its rendering-finished semaphore and
its fence. -/
def vkw_frame_end_and_submit (slot : Nat) : List Event :=
  [Event.end_command_buffer slot, Event.queue_submit slot]

/-- Lines 752-807: the commands recorded for one frame, in order. -/
def record_commands (s : loop_state) (image_index : Nat) : List Cmd :=
  [ Cmd.transition_image Image.draw_image
      .VK_IMAGE_LAYOUT_UNDEFINED .VK_IMAGE_LAYOUT_GENERAL,
    Cmd.bind_pipeline,
    Cmd.bind_descriptor_sets,
    Cmd.push_constants s.frame_number,
    Cmd.trace_rays draw_extent.1 draw_extent.2 1,
    Cmd.transition_image Image.draw_image
      .VK_IMAGE_LAYOUT_GENERAL .VK_IMAGE_LAYOUT_TRANSFER_SRC_OPTIMAL,
    Cmd.transition_image (Image.swapchain_image s.swapchain image_index)
      .VK_IMAGE_LAYOUT_UNDEFINED .VK_IMAGE_LAYOUT_TRANSFER_DST_OPTIMAL,
    Cmd.copy_image_to_image Image.draw_image (Image.swapchain_image s.swapchain image_index),
    Cmd.transition_image (Image.swapchain_image s.swapchain image_index)
      .VK_IMAGE_LAYOUT_TRANSFER_DST_OPTIMAL .VK_IMAGE_LAYOUT_COLOR_ATTACHMENT_OPTIMAL,
    Cmd.begin_rendering (Image.swapchain_image s.swapchain image_index)
      .VK_IMAGE_LAYOUT_GENERAL,
    Cmd.imgui_render_draw_data,
    Cmd.end_rendering,
    Cmd.transition_image (Image.swapchain_image s.swapchain image_index)
      .VK_IMAGE_LAYOUT_COLOR_ATTACHMENT_OPTIMAL .VK_IMAGE_LAYOUT_PRESENT_SRC_KHR ]

/-- Lines 706 and 741-823: select the slot, begin, acquire, and then either skip the
iteration (out-of-date) or record, submit and present. -/
def frame_phase (s : loop_state) (inp : frame_input) : loop_state × List Event :=
  let slot := s.frame_number % 2
  let b := vkw_frame_cmd_begin slot inp.fence_signalled
  if b.1 = false then ({ s with aborted := true }, b.2)
  else
    let acquire :=
      [Event.acquire_next_image s.swapchain slot inp.acquire_result inp.image_index]
    if inp.acquire_result = VkResult.VK_ERROR_OUT_OF_DATE_KHR then
      ({ s with swapchain_resize := true }, b.2 ++ acquire)
    else
      let t := b.2 ++ acquire ++
        (record_commands s inp.image_index).map (Event.record slot) ++
        vkw_frame_end_and_submit slot ++
        [Event.queue_present s.swapchain slot inp.image_index inp.present_result]
      if inp.present_result = VkResult.VK_ERROR_OUT_OF_DATE_KHR then
        ({ s with swapchain_resize := true }, t)
      else (s, t)

/-- Lines 679-823: one pass through the loop body. -/
def loop_body (s : loop_state) (inp : frame_input) : loop_state × List Event :=
  let r := resize_phase (reset_phase s)
  let p := poll_events r.1 inp.events
  let f := frame_phase (imgui_phase p.1 inp) inp
  (f.1, r.2 ++ p.2 ++ f.2)

/-- The body followed by the `frame_number++` of the `for` header (line 678), which a
`continue` also reaches; a terminated process executes nothing further. -/
def loop_iteration (s : loop_state) (inp : frame_input) : loop_state × List Event :=
  let r := loop_body s inp
  if r.1.aborted then r
  else ({ r.1 with frame_number := (r.1.frame_number + 1) % 2 ^ 32 }, r.2)

/-- Line 678: `for (;!done; frame_number++)`, run on the given per-iteration answers.
The loop stops when `done` is set or the process was terminated; when the answers run
out the result is the run so far. -/
def render_loop : loop_state → List frame_input → loop_state × List Event
  | s, [] => (s, [])
  | s, inp :: rest =>
    if s.done || s.aborted then (s, [])
    else
      let r := loop_iteration s inp
      let r2 := render_loop r.1 rest
      (r2.1, r.2 ++ r2.2)

/-- Lines 829-831: `for (uint32_t i = 0; i < geom_count; ++i) vkrt_destroy_as(blases[i])`
with `geom_count` a `size_t`; `none` when the fuel runs out before the loop exits. -/
def destroy_blases_loop : Nat → Nat → Nat → Option (List Event)
  | 0, _, _ => none
  | fuel + 1, i, geom_count =>
    if i < geom_count then
      (destroy_blases_loop fuel ((i + 1) % 2 ^ 32) geom_count).map
        (fun t => Event.destroy_as (AccelStruct.blas i) :: t)
    else some []

/-- Lines 826-872: the teardown, given the BLAS count and the current swapchain. -/
def teardown (fuel geom_count swapchain : Nat) : Option (List Event) :=
  (destroy_blases_loop fuel 0 geom_count).map (fun blas_destroys =>
    [Event.device_wait_idle, Event.destroy_as AccelStruct.tlas] ++ blas_destroys ++
    [ Event.free_blases,
      Event.memory_free MemoryBlock.sbt_rgen_buffer,
      Event.memory_free MemoryBlock.sbt_rmiss_buffer,
      Event.memory_free MemoryBlock.sbt_rchit_buffer,
      Event.memory_free MemoryBlock.geometry_nodes,
      Event.free_model,
      Event.destroy_pipeline,
      Event.destroy_pipeline_layout,
      Event.destroy_descriptor_set_layout,
      Event.frame_data_destroy 0,
      Event.frame_data_destroy 1,
      Event.imgui_destroy_fonts_texture,
      Event.destroy_imgui_pool,
      Event.imgui_shutdown,
      Event.immediate_submit_buffer_destroy,
      Event.image_destroy,
      Event.descriptor_allocator_destroy,
      Event.vma_destroy_allocator,
      Event.destroy_swapchain swapchain,
      Event.destroy_surface,
      Event.destroy_device,
      Event.destroy_debug_utils_messenger,
      Event.destroy_instance,
      Event.sdl_destroy_window,
      Event.sdl_vulkan_unload_library,
      Event.sdl_quit ])

/-- The swapchain build of setup (line 303), the render loop, and the teardown once the
loop has exited through `done`; `none` when the process was terminated, the answers
ran out before `done`, or the fuel ran out. -/
def main_trace (fuel geom_count : Nat) (inputs : List frame_input) : Option (List Event) :=
  let r := render_loop initial_state inputs
  if r.1.done && !r.1.aborted then
    (teardown fuel geom_count r.1.swapchain).map (fun t =>
      Event.build_swapchain 0 1280 720 :: (r.2 ++ t))
  else none

/-! ## Properties of traces -/

/-- The frame slot an event refers to, if any. -/
def Event.slot : Event → Option Nat
  | .wait_for_fence slot _ => some slot
  | .reset_fence slot => some slot
  | .begin_command_buffer slot => some slot
  | .acquire_next_image _ slot _ _ => some slot
  | .record slot _ => some slot
  | .end_command_buffer slot => some slot
  | .queue_submit slot => some slot
  | .queue_present _ slot _ _ => some slot
  | _ => none

/-- The state of a frame slot's fence: signalled, unsignalled with a submission in
flight that will signal it, or unsignalled with nothing in flight. -/
inductive fence_state where
  | signalled
  | submitted
  | unsignalled
deriving DecidableEq, Repr

/-- Modelled from the spec: the fence of a frame slot is reset by `begin(slot)` and
only `end_and_submit(slot)` causes it to be signalled again. -/
def fence_step (fences : Nat → fence_state) : Event → Nat → fence_state
  | .reset_fence slot => fun k => if k = slot then fence_state.unsignalled else fences k
  | .queue_submit slot => fun k => if k = slot then fence_state.submitted else fences k
  | _ => fences

/-- The fence states after a trace. -/
def fences_after (fences : Nat → fence_state) : List Event → Nat → fence_state
  | [] => fences
  | e :: t => fences_after (fence_step fences e) t

/-- Every fence wait of the trace is on a fence that is signalled or has a submission
in flight that will signal it. -/
def fence_waits_live (fences : Nat → fence_state) : List Event → Bool
  | [] => true
  | e :: t =>
    (match e with
      | .wait_for_fence slot _ => decide (fences slot ≠ fence_state.unsignalled)
      | _ => true) &&
    fence_waits_live (fence_step fences e) t

/-- Every fence wait of the trace that reports the fence signalled is on a fence that
is signalled or has a submission in flight: the run is one the device can produce. -/
def fence_reports_possible (fences : Nat → fence_state) : List Event → Bool
  | [] => true
  | e :: t =>
    (match e with
      | .wait_for_fence slot true => decide (fences slot ≠ fence_state.unsignalled)
      | _ => true) &&
    fence_reports_possible (fence_step fences e) t

/-- Both fences are created signalled. -/
def initial_fences : Nat → fence_state :=
  fun _ => fence_state.signalled

/-- Does the event issue an acquire or a present against the swapchain? -/
def Event.uses_swapchain : Event → Bool
  | .acquire_next_image _ _ _ _ => true
  | .queue_present _ _ _ _ => true
  | _ => false

/-- Staleness of the swapchain by the words of the data model: a processed
window-resized event or an out-of-date report makes it stale; only a rebuild ends it. -/
def stale_step_resized_or_reported (stale : Bool) : Event → Bool
  | .sdl_get_window_size _ _ => true
  | .acquire_next_image _ _ res _ => stale || decide (res = VkResult.VK_ERROR_OUT_OF_DATE_KHR)
  | .queue_present _ _ _ res => stale || decide (res = VkResult.VK_ERROR_OUT_OF_DATE_KHR)
  | .build_swapchain _ _ _ => false
  | _ => stale

/-- Staleness of the swapchain through out-of-date reports alone: an acquire or
present reporting out-of-date makes it stale; only a rebuild ends it. -/
def stale_step_reported (stale : Bool) : Event → Bool
  | .acquire_next_image _ _ res _ => stale || decide (res = VkResult.VK_ERROR_OUT_OF_DATE_KHR)
  | .queue_present _ _ _ res => stale || decide (res = VkResult.VK_ERROR_OUT_OF_DATE_KHR)
  | .build_swapchain _ _ _ => false
  | _ => stale

/-- No acquire or present of the trace is issued while the swapchain is stale, for the
given notion of staleness. -/
def no_stale_use (step : Bool → Event → Bool) : Bool → List Event → Bool
  | _, [] => true
  | stale, e :: t => !(e.uses_swapchain && stale) && no_stale_use step (step stale e) t

/-- Staleness at the end of a trace. -/
def stale_after (step : Bool → Event → Bool) : Bool → List Event → Bool
  | stale, [] => stale
  | stale, e :: t => stale_after step (step stale e) t

/-- The events of a swapchain rebuild: device-idle wait, destroy, build. -/
def Event.is_swapchain_lifecycle : Event → Bool
  | .device_wait_idle => true
  | .destroy_swapchain _ => true
  | .build_swapchain _ _ _ => true
  | _ => false

/-- Reads a list of lifecycle events as a sequence of rebuilds, each a device-idle
wait, then one destroy, then one build; the number of rebuilds, or `none` when the
list is not such a sequence. -/
def count_rebuilds : List Event → Option Nat
  | [] => some 0
  | Event.device_wait_idle :: Event.destroy_swapchain _ :: Event.build_swapchain _ _ _ :: t =>
    (count_rebuilds t).map (fun n => n + 1)
  | _ => none

/-- The rebuilds performed in a trace. -/
def rebuilds_in (t : List Event) : Option Nat :=
  count_rebuilds (t.filter Event.is_swapchain_lifecycle)

/-- Does the event render: record a command, submit, or present? -/
def Event.is_frame_work : Event → Bool
  | .record _ _ => true
  | .end_command_buffer _ => true
  | .queue_submit _ => true
  | .queue_present _ _ _ _ => true
  | _ => false

/-- Is the event the build of swapchain object `id`? -/
def Event.builds (id : Nat) : Event → Bool
  | .build_swapchain c _ _ => decide (c = id)
  | _ => false

/-- Is the event the destruction of swapchain object `id`? -/
def Event.destroys (id : Nat) : Event → Bool
  | .destroy_swapchain c => decide (c = id)
  | _ => false

/-- The teardown order in the words of the shutdown contract. -/
def shutdown_order (geom_count swapchain : Nat) : List Event :=
  [Event.device_wait_idle, Event.destroy_as AccelStruct.tlas] ++
  (List.range geom_count).map (fun i => Event.destroy_as (AccelStruct.blas i)) ++
  [ Event.memory_free MemoryBlock.sbt_rgen_buffer,
    Event.memory_free MemoryBlock.sbt_rmiss_buffer,
    Event.memory_free MemoryBlock.sbt_rchit_buffer,
    Event.memory_free MemoryBlock.geometry_nodes,
    Event.free_model,
    Event.destroy_pipeline,
    Event.destroy_pipeline_layout,
    Event.destroy_descriptor_set_layout,
    Event.frame_data_destroy 0,
    Event.frame_data_destroy 1,
    Event.image_destroy,
    Event.descriptor_allocator_destroy,
    Event.vma_destroy_allocator,
    Event.destroy_swapchain swapchain,
    Event.destroy_surface,
    Event.destroy_device,
    Event.destroy_instance ]

/-- The teardown steps the shutdown contract names; the others (host array, UI
library, one-shot submit buffer, debug messenger, window system) it leaves out. -/
def Event.in_shutdown_contract : Event → Bool
  | .free_blases => false
  | .imgui_destroy_fonts_texture => false
  | .destroy_imgui_pool => false
  | .imgui_shutdown => false
  | .immediate_submit_buffer_destroy => false
  | .destroy_debug_utils_messenger => false
  | .sdl_destroy_window => false
  | .sdl_vulkan_unload_library => false
  | .sdl_quit => false
  | _ => true

/-- The bookkeeping of swapchain objects: objects `0 .. swapchains_built - 1` have each
been built once, and each of them except the current one has been destroyed once. -/
def swapchain_accounts (s : loop_state) (t : List Event) : Prop :=
  s.swapchain < s.swapchains_built ∧
  ∀ id, t.countP (Event.builds id) = (if id < s.swapchains_built then 1 else 0) ∧
    t.countP (Event.destroys id)
      = (if id < s.swapchains_built ∧ id ≠ s.swapchain then 1 else 0)

/-! ## Sample environment answers -/

/-- An iteration with no window event and no click, where everything succeeds. -/
def frame_ok : frame_input :=
  { events := []
    ui_visible := true
    reset_clicked := false
    fence_signalled := true
    acquire_result := VkResult.VK_SUCCESS
    image_index := 0
    present_result := VkResult.VK_SUCCESS }

/-- An iteration whose acquire reports out-of-date. -/
def frame_out_of_date : frame_input :=
  { frame_ok with acquire_result := VkResult.VK_ERROR_OUT_OF_DATE_KHR }

/-- An iteration whose fence wait expires. -/
def frame_fence_expired : frame_input :=
  { frame_ok with fence_signalled := false }

/-- An iteration in which the window is resized to 800 by 600 and the driver still
accepts the old swapchain. -/
def frame_resized : frame_input :=
  { frame_ok with events := [SDL_Event.SDL_WINDOWEVENT_RESIZED 800 600] }

/-- An iteration in which the window is closed. -/
def frame_quit : frame_input :=
  { frame_ok with events := [SDL_Event.SDL_QUIT] }

/-- An iteration in which the window is closed and acquire reports out-of-date. -/
def frame_quit_out_of_date : frame_input :=
  { frame_out_of_date with events := [SDL_Event.SDL_QUIT] }

/-! ## Descriptor pool and descriptor set layout (main.c 316-320, 467-479)

`vkw_descriptor_allocator_init`, `vkw_descriptor_layout_builder_add` and
`vkw_descriptor_allocator_alloc` live in `vk_wrap.h`.  The arguments `main` hands to
them are embedded here; what the allocator makes of its arguments is a parameter. -/

/-- The descriptor types `main` names. -/
inductive VkDescriptorType where
  | VK_DESCRIPTOR_TYPE_ACCELERATION_STRUCTURE_KHR
  | VK_DESCRIPTOR_TYPE_STORAGE_IMAGE
  | VK_DESCRIPTOR_TYPE_STORAGE_BUFFER
  | VK_DESCRIPTOR_TYPE_COMBINED_IMAGE_SAMPLER
deriving DecidableEq, Repr

/-- One entry of the `ratios` array handed to the descriptor allocator. -/
structure vkw_pool_size_ratio where
  type : VkDescriptorType
  ratio : Nat
deriving DecidableEq, Repr

/-- Lines 316-318. -/
def ratios : List vkw_pool_size_ratio :=
  [{ type := VkDescriptorType.VK_DESCRIPTOR_TYPE_STORAGE_IMAGE, ratio := 1 }]

/-- What a descriptor allocator makes of its arguments `max_sets`, `ratio_count` and
`ratios`: the number of descriptors of each type its pool holds. -/
abbrev allocator_init := Nat → Nat → List vkw_pool_size_ratio → VkDescriptorType → Nat

/-- Lines 319-320: `ds_alloc = vkw_descriptor_allocator_init(device, 10, 1, ratios)`,
executed before the model is loaded (line 401). -/
def ds_alloc (init : allocator_init) : VkDescriptorType → Nat :=
  init 10 1 ratios

/-- An allocator whose pool has one pool size per entry of `ratios`, holding
`ratio * max_sets` descriptors of the entry's type, and nothing of any other type. -/
def init_per_ratio : allocator_init :=
  fun max_sets ratio_count ratios type =>
    (((ratios.take ratio_count).filter (fun r => decide (r.type = type))).map
      (fun r => r.ratio * max_sets)).sum

/-- Lines 468-474: the bindings of `rt_layout`, as (binding, type, descriptor count). -/
def rt_layout (texture_count : Nat) : List (Nat × VkDescriptorType × Nat) :=
  [ (0, VkDescriptorType.VK_DESCRIPTOR_TYPE_ACCELERATION_STRUCTURE_KHR, 1),
    (1, VkDescriptorType.VK_DESCRIPTOR_TYPE_STORAGE_IMAGE, 1),
    (2, VkDescriptorType.VK_DESCRIPTOR_TYPE_STORAGE_BUFFER, 1),
    (3, VkDescriptorType.VK_DESCRIPTOR_TYPE_STORAGE_BUFFER, 1),
    (4, VkDescriptorType.VK_DESCRIPTOR_TYPE_COMBINED_IMAGE_SAMPLER, texture_count) ]

/-- The number of descriptors of a type that one set of the layout takes. -/
def descriptors_needed (layout : List (Nat × VkDescriptorType × Nat)) (type : VkDescriptorType) :
    Nat :=
  ((layout.filter (fun b => decide (b.2.1 = type))).map (fun b => b.2.2)).sum

/-- The pool holds, for every descriptor type, at least what one set of the layout
takes. -/
def pool_covers (pool : VkDescriptorType → Nat) (layout : List (Nat × VkDescriptorType × Nat)) :
    Prop :=
  ∀ type, descriptors_needed layout type ≤ pool type

/-! ## Geometry records against BLAS builds -/

/-- The (mesh index, primitive index) pairs of the model in mesh-major order. -/
def primitives_in_order (model : vkrt_model) : List (Nat × Nat) :=
  (List.range model.mesh_count).flatMap
    (fun i => (List.range (model.meshes i).primitive_count).map (fun j => (i, j)))

/-- The geometry record describing primitive `j` of mesh `i`. -/
def node_of (model : vkrt_model) (ij : Nat × Nat) : geometry_node :=
  { vertex_buffer_address := ((model.meshes ij.1).primitives ij.2).vertex_buffer.device_address
    index_buffer_address := ((model.meshes ij.1).primitives ij.2).index_buffer.device_address
    material_index := ((model.meshes ij.1).primitives ij.2).material_index }

/-- The BLAS build made from primitive `j` of mesh `i`. -/
def build_of (model : vkrt_model) (ij : Nat × Nat) : blas_build :=
  { vertex_buffer := ((model.meshes ij.1).primitives ij.2).vertex_buffer
    index_buffer := ((model.meshes ij.1).primitives ij.2).index_buffer
    primitive_count := ((model.meshes ij.1).primitives ij.2).primitive_count
    vertex_count := ((model.meshes ij.1).primitives ij.2).vertex_count
    transform_buffer := (model.meshes ij.1).transform_buffer }

/-! ## Recorded frames -/

/-- The command sequence of one frame in the words of the `RECORD` state: `frame_no`
is the frame counter pushed, `swapchain` and `image_index` name the acquired
presentable image. -/
def record_sequence (frame_no swapchain image_index : Nat) : List Cmd :=
  [ Cmd.transition_image Image.draw_image
      VkImageLayout.VK_IMAGE_LAYOUT_UNDEFINED VkImageLayout.VK_IMAGE_LAYOUT_GENERAL,
    Cmd.bind_pipeline,
    Cmd.bind_descriptor_sets,
    Cmd.push_constants frame_no,
    Cmd.trace_rays draw_extent.1 draw_extent.2 1,
    Cmd.transition_image Image.draw_image
      VkImageLayout.VK_IMAGE_LAYOUT_GENERAL VkImageLayout.VK_IMAGE_LAYOUT_TRANSFER_SRC_OPTIMAL,
    Cmd.transition_image (Image.swapchain_image swapchain image_index)
      VkImageLayout.VK_IMAGE_LAYOUT_UNDEFINED VkImageLayout.VK_IMAGE_LAYOUT_TRANSFER_DST_OPTIMAL,
    Cmd.copy_image_to_image Image.draw_image (Image.swapchain_image swapchain image_index),
    Cmd.transition_image (Image.swapchain_image swapchain image_index)
      VkImageLayout.VK_IMAGE_LAYOUT_TRANSFER_DST_OPTIMAL
      VkImageLayout.VK_IMAGE_LAYOUT_COLOR_ATTACHMENT_OPTIMAL ] ++
  [ Cmd.begin_rendering (Image.swapchain_image swapchain image_index)
      VkImageLayout.VK_IMAGE_LAYOUT_GENERAL,
    Cmd.imgui_render_draw_data,
    Cmd.end_rendering ] ++
  [ Cmd.transition_image (Image.swapchain_image swapchain image_index)
      VkImageLayout.VK_IMAGE_LAYOUT_COLOR_ATTACHMENT_OPTIMAL
      VkImageLayout.VK_IMAGE_LAYOUT_PRESENT_SRC_KHR ]

/-- The frame counters pushed to the shaders along a trace, in order. -/
def pushed_frame_numbers : List Event → List Nat
  | [] => []
  | Event.record _ (Cmd.push_constants frame_no) :: t => frame_no :: pushed_frame_numbers t
  | _ :: t => pushed_frame_numbers t

/-- The layout each image was last transitioned to, after one more command. -/
def layout_step (layouts : Image → Option VkImageLayout) : Cmd → Image → Option VkImageLayout
  | Cmd.transition_image image _ new_layout =>
    fun i => if i = image then some new_layout else layouts i
  | _ => layouts

/-- Every transition of the command stream starts from `VK_IMAGE_LAYOUT_UNDEFINED` or
from the layout its image was last transitioned to. -/
def transitions_consistent (layouts : Image → Option VkImageLayout) : List Cmd → Bool
  | [] => true
  | c :: t =>
    (match c with
      | Cmd.transition_image image old_layout _ =>
        decide (old_layout = VkImageLayout.VK_IMAGE_LAYOUT_UNDEFINED) ||
          decide (layouts image = some old_layout)
      | _ => true) &&
    transitions_consistent (layout_step layouts c) t

/-- Every rendering pass of the command stream declares for its colour attachment the
layout that image was last transitioned to. -/
def attachment_layouts_match (layouts : Image → Option VkImageLayout) : List Cmd → Bool
  | [] => true
  | c :: t =>
    (match c with
      | Cmd.begin_rendering attachment image_layout =>
        decide (layouts attachment = some image_layout)
      | _ => true) &&
    attachment_layouts_match (layout_step layouts c) t

/-- The layouts after a command stream. -/
def layouts_after (layouts : Image → Option VkImageLayout) : List Cmd → Image → Option VkImageLayout
  | [] => layouts
  | c :: t => layouts_after (layout_step layouts c) t

/-- No image has been transitioned yet. -/
def no_layouts : Image → Option VkImageLayout :=
  fun _ => none

/-- An iteration in which the `reset` checkbox is ticked. -/
def frame_reset_clicked : frame_input :=
  { frame_ok with reset_clicked := true }

/-! # Theorems -/

/-! ## Shader binding table: proofs -/

theorem land_not_mask (x k : Nat) (hx : x < 2 ^ 64) (hk : k ≤ 64) :
    x &&& (2 ^ 64 - 1 - (2 ^ k - 1)) = x / 2 ^ k * 2 ^ k := by
  apply Nat.eq_of_testBit_eq
  intro i
  have hpos : 0 < 2 ^ k := Nat.pos_pow_of_pos _ (by decide)
  have hle : 2 ^ k ≤ 2 ^ 64 := Nat.pow_le_pow_right (by decide) hk
  have e : 2 ^ 64 - 1 - (2 ^ k - 1) = 2 ^ 64 - ((2 ^ k - 1) + 1) := by omega
  rw [Nat.testBit_and, e, Nat.testBit_two_pow_sub_succ (by omega), Nat.testBit_two_pow_sub_one,
    Nat.mul_comm, Nat.testBit_mul_pow_two, ← Nat.shiftRight_eq_div_pow, Nat.testBit_shiftRight]
  by_cases h1 : i < k
  · have : ¬ (i ≥ k) := by omega
    simp [h1, this]
  · have h2 : i ≥ k := by omega
    have e2 : k + (i - k) = i := by omega
    by_cases h3 : i < 64
    · simp [h1, h2, h3, e2]
    · have : x.testBit i = false := by
        apply Nat.testBit_lt_two_pow
        calc x < 2 ^ 64 := hx
          _ ≤ 2 ^ i := Nat.pow_le_pow_right (by decide) (by omega)
      simp [h1, h2, h3, e2, this]

theorem sbt_handle_size_aligned_eq (hs k : Nat) (hhs : hs < 2 ^ 32) (hal : 2 ^ k < 2 ^ 32) :
    sbt_handle_size_aligned hs (2 ^ k) = (hs + 2 ^ k - 1) / 2 ^ k * 2 ^ k := by
  have hpos : 0 < 2 ^ k := Nat.pos_pow_of_pos _ (by decide)
  have hk : k < 32 := (Nat.pow_lt_pow_iff_right (by decide)).1 hal
  unfold sbt_handle_size_aligned
  have e1 : (hs + 2 ^ k + (2 ^ 64 - 1)) % 2 ^ 64 = hs + 2 ^ k - 1 := by omega
  have e2 : (2 ^ k + (2 ^ 64 - 1)) % 2 ^ 64 = 2 ^ k - 1 := by omega
  rw [e1, e2]
  exact land_not_mask _ k (by omega) (by omega)

/-- C1: for a 32-bit handle size and a 32-bit power-of-two alignment, the aligned
handle size computed at lines 603-604 is a multiple of the alignment, is at least the
handle size, is less than handle size plus alignment, and is the least multiple of the
alignment that is at least the handle size. -/
theorem sbt_handle_size_aligned_round_up (handle_size handle_alignment k : Nat)
    (hsize : handle_size < 2 ^ 32) (halign : handle_alignment < 2 ^ 32)
    (hpow : handle_alignment = 2 ^ k) :
    handle_alignment ∣ sbt_handle_size_aligned handle_size handle_alignment ∧
    handle_size ≤ sbt_handle_size_aligned handle_size handle_alignment ∧
    sbt_handle_size_aligned handle_size handle_alignment < handle_size + handle_alignment ∧
    ∀ m, handle_alignment ∣ m → handle_size ≤ m →
      sbt_handle_size_aligned handle_size handle_alignment ≤ m := by
  subst hpow
  have hpos : 0 < 2 ^ k := Nat.pos_pow_of_pos _ (by decide)
  rw [sbt_handle_size_aligned_eq handle_size k hsize halign]
  have hdm := Nat.div_add_mod (handle_size + 2 ^ k - 1) (2 ^ k)
  have hml := Nat.mod_lt (handle_size + 2 ^ k - 1) hpos
  rw [Nat.mul_comm] at hdm
  refine ⟨Dvd.intro_left _ rfl, by omega, by omega, ?_⟩
  rintro m ⟨q, rfl⟩ hm
  rw [Nat.mul_comm (2 ^ k) q]
  apply Nat.mul_le_mul_right
  apply Nat.le_of_lt_succ
  rw [Nat.div_lt_iff_lt_mul hpos, Nat.succ_mul, Nat.mul_comm q]
  omega

theorem sbt_handle_size_aligned_round_up_witness :
    (33 < 2 ^ 32 ∧ 32 < 2 ^ 32 ∧ 32 = 2 ^ 5) ∧
    (32 ∣ sbt_handle_size_aligned 33 32 ∧
     33 ≤ sbt_handle_size_aligned 33 32 ∧
     sbt_handle_size_aligned 33 32 < 33 + 32 ∧
     ∀ m, 32 ∣ m → 33 ≤ m → sbt_handle_size_aligned 33 32 ≤ m) :=
  ⟨by decide, sbt_handle_size_aligned_round_up 33 32 5 (by decide) (by decide) (by decide)⟩

/-- C2, evaluated on a device reporting handle size 32 and handle alignment 64: the
query packs the three handles at offsets 0, 32, 64, the uploads read at offsets 0, 64,
128, so the miss region receives the handle of group 2 and the closest-hit region
receives 32 zero bytes, neither the handle of its own group. -/
theorem sbt_region_mismatch_at_32_64 :
    sbt_region (sample_handle 32) 32 64 0 = sample_handle 32 0 ∧
    sbt_region (sample_handle 32) 32 64 1 = sample_handle 32 2 ∧
    sbt_region (sample_handle 32) 32 64 1 ≠ sample_handle 32 1 ∧
    sbt_region (sample_handle 32) 32 64 2 = List.replicate 32 0 ∧
    sbt_region (sample_handle 32) 32 64 2 ≠ sample_handle 32 2 := by
  decide

theorem packed_handles (a b c : List Nat) (n : Nat) (ha : a.length = n) (hb : b.length = n)
    (hc : c.length = n) :
    write_bytes (write_bytes (write_bytes (List.replicate (3 * n) 0) (0 * n) a) (1 * n) b)
      (2 * n) c = a ++ b ++ c := by
  have e1 : write_bytes (List.replicate (3 * n) 0) (0 * n) a = a ++ List.replicate (2 * n) 0 := by
    unfold write_bytes
    simp only [Nat.zero_mul, List.take_zero, List.nil_append, Nat.zero_add, ha,
      List.drop_replicate]
    congr 2
    omega
  have e2 : write_bytes (a ++ List.replicate (2 * n) 0) (1 * n) b
      = (a ++ b) ++ List.replicate n 0 := by
    unfold write_bytes
    have hd : List.drop (n + n) (a ++ List.replicate (2 * n) 0) = List.replicate n 0 := by
      have := @List.drop_append _ a (List.replicate (2 * n) 0) n
      rw [ha] at this
      rw [this, List.drop_replicate]
      congr 1
      omega
    rw [Nat.one_mul, hb, List.take_left' ha, hd]
  have hab : (a ++ b).length = 2 * n := by
    rw [List.length_append, ha, hb]
    omega
  have e3 : write_bytes ((a ++ b) ++ List.replicate n 0) (2 * n) c = a ++ b ++ c := by
    unfold write_bytes
    have hd : List.drop (2 * n + n) ((a ++ b) ++ List.replicate n 0) = [] := by
      have := @List.drop_append _ (a ++ b) (List.replicate n 0) n
      rw [hab] at this
      rw [this, List.drop_replicate]
      simp
    rw [hc, List.take_left' hab, hd, List.append_nil]
  rw [e1, e2, e3]

/-- Where the handle size is itself a multiple of the alignment (as with the sizes the
Vulkan limits require, 32 and a power of two up to 32), the aligned stride equals the
handle size and each SBT region receives the handle of its own group. -/
theorem sbt_region_eq_handle_of_dvd (handle : Nat → List Nat)
    (handle_size handle_alignment k : Nat)
    (hsize : handle_size < 2 ^ 32) (halign : handle_alignment < 2 ^ 32)
    (hpow : handle_alignment = 2 ^ k) (hdvd : handle_alignment ∣ handle_size)
    (hlen : ∀ g, g < 3 → (handle g).length = handle_size) :
    ∀ g, g < 3 → sbt_region handle handle_size handle_alignment g = handle g := by
  subst hpow
  have hpos : 0 < 2 ^ k := Nat.pos_pow_of_pos _ (by decide)
  have hal : sbt_handle_size_aligned handle_size (2 ^ k) = handle_size := by
    rw [sbt_handle_size_aligned_eq handle_size k hsize halign]
    obtain ⟨q, rfl⟩ := hdvd
    have : (2 ^ k * q + 2 ^ k - 1) / 2 ^ k = q := by
      apply Nat.div_eq_of_lt_le
      · rw [Nat.mul_comm q]; omega
      · rw [Nat.succ_mul, Nat.mul_comm q]; omega
    rw [this, Nat.mul_comm]
  have h0 := hlen 0 (by decide)
  have h1 := hlen 1 (by decide)
  have h2 := hlen 2 (by decide)
  have hres : sbt_results handle handle_size (2 ^ k) = handle 0 ++ handle 1 ++ handle 2 := by
    unfold sbt_results sbt_size get_shader_group_handles
    rw [hal, Nat.mod_eq_of_lt (by omega), List.take_of_length_le (by omega),
      List.take_of_length_le (by omega), List.take_of_length_le (by omega)]
    exact packed_handles _ _ _ _ h0 h1 h2
  intro g hg
  have hg3 : g = 0 ∨ g = 1 ∨ g = 2 := by omega
  rcases hg3 with rfl | rfl | rfl
  · show read_bytes _ 0 handle_size = handle 0
    rw [hres]
    unfold read_bytes
    rw [List.drop_zero, List.append_assoc, List.take_left' h0]
  · show read_bytes _ (sbt_handle_size_aligned handle_size (2 ^ k)) handle_size = handle 1
    rw [hres, hal]
    unfold read_bytes
    rw [List.append_assoc, List.drop_left' h0, List.take_left' h1]
  · show read_bytes _ ((sbt_handle_size_aligned handle_size (2 ^ k) * 2) % 2 ^ 64) handle_size
      = handle 2
    rw [hres, hal, Nat.mod_eq_of_lt (by omega)]
    unfold read_bytes
    have hab : (handle 0 ++ handle 1).length = handle_size * 2 := by
      rw [List.length_append, h0, h1]
      omega
    rw [List.drop_left' hab, List.take_of_length_le (by omega)]

/-! ## Acceleration structures: proofs -/

theorem index_loop_length {β : Type} (g : Nat → Nat → β) (n : Nat) (st : Nat × List (Nat × β)) :
    ((List.range n).foldl (fun st j => ((st.1 + 1) % 2 ^ 64, st.2 ++ [(st.1, g st.1 j)])) st).2.length
      = st.2.length + n := by
  induction n with
  | zero => simp
  | succ n ih =>
    rw [List.range_succ, List.foldl_append]
    simp only [List.foldl_cons, List.foldl_nil, List.length_append, List.length_singleton]
    rw [ih]
    omega

theorem blases_loop_length_aux (model : vkrt_model) (m : Nat) (st : Nat × List (Nat × blas_build)) :
    ((List.range m).foldl
      (fun st i =>
        let mesh := model.meshes i
        let transform_buffer := mesh.transform_buffer
        (List.range mesh.primitive_count).foldl
          (fun st j =>
            let p := mesh.primitives j
            ((st.1 + 1) % 2 ^ 64,
              st.2 ++ [(st.1,
                { vertex_buffer := p.vertex_buffer,
                  index_buffer := p.index_buffer,
                  primitive_count := p.primitive_count,
                  vertex_count := p.vertex_count,
                  transform_buffer := transform_buffer })]))
          st)
      st).2.length
      = st.2.length + ((List.range m).map (fun i => (model.meshes i).primitive_count)).sum := by
  induction m with
  | zero => simp
  | succ m ih =>
    rw [List.range_succ, List.foldl_append, List.map_append, List.sum_append]
    simp only [List.foldl_cons, List.foldl_nil, List.map_cons, List.map_nil, List.sum_cons,
      List.sum_nil, Nat.add_zero]
    have h := index_loop_length
      (fun _ j =>
        ({ vertex_buffer := ((model.meshes m).primitives j).vertex_buffer,
           index_buffer := ((model.meshes m).primitives j).index_buffer,
           primitive_count := ((model.meshes m).primitives j).primitive_count,
           vertex_count := ((model.meshes m).primitives j).vertex_count,
           transform_buffer := (model.meshes m).transform_buffer } : blas_build))
      (model.meshes m).primitive_count
    rw [h, ih]
    omega

theorem blases_loop_length (model : vkrt_model) :
    (blases_loop model).2.length = total_primitives model := by
  unfold blases_loop total_primitives
  rw [blases_loop_length_aux]
  simp

theorem geom_count_mod (model : vkrt_model) (m : Nat) :
    (List.range m).foldl (fun acc i => (acc + (model.meshes i).primitive_count) % 2 ^ 64) 0
      = ((List.range m).map (fun i => (model.meshes i).primitive_count)).sum % 2 ^ 64 := by
  induction m with
  | zero => simp
  | succ m ih =>
    rw [List.range_succ, List.foldl_append, List.map_append, List.sum_append]
    simp only [List.foldl_cons, List.foldl_nil, List.map_cons, List.map_nil, List.sum_cons,
      List.sum_nil, Nat.add_zero]
    rw [ih, Nat.mod_add_mod]

theorem sum_range_le (c : Nat → Nat) (b m : Nat) (h : ∀ i, i < m → c i ≤ b) :
    ((List.range m).map c).sum ≤ m * b := by
  induction m with
  | zero => simp
  | succ m ih =>
    rw [List.range_succ, List.map_append, List.sum_append]
    simp only [List.map_cons, List.map_nil, List.sum_cons, List.sum_nil, Nat.add_zero]
    have h1 := ih (fun i hi => h i (by omega))
    have h2 := h m (by omega)
    rw [Nat.succ_mul]
    omega

theorem geom_count_eq_total (model : vkrt_model) (h : model_counts_32bit model) :
    geom_count model = total_primitives model := by
  unfold geom_count total_primitives
  rw [geom_count_mod]
  apply Nat.mod_eq_of_lt
  have hle := sum_range_le (fun i => (model.meshes i).primitive_count) (2 ^ 32 - 1)
    model.mesh_count (fun i hi => by
      have := h.2 i hi
      show (model.meshes i).primitive_count ≤ 2 ^ 32 - 1
      omega)
  have hm := h.1
  calc ((List.range model.mesh_count).map (fun i => (model.meshes i).primitive_count)).sum
      ≤ model.mesh_count * (2 ^ 32 - 1) := hle
    _ ≤ (2 ^ 32 - 1) * (2 ^ 32 - 1) := Nat.mul_le_mul_right _ (by omega)
    _ < 2 ^ 64 := by decide

theorem filter_blas_builds (l : List (Nat × blas_build)) (n : Nat) :
    (l.map (fun w => as_build.create_blas3 w.1 w.2) ++ [as_build.create_tlas n]).filter
        as_build.is_blas = l.map (fun w => as_build.create_blas3 w.1 w.2) ∧
    (l.map (fun w => as_build.create_blas3 w.1 w.2) ++ [as_build.create_tlas n]).filter
        (fun b => !b.is_blas) = [as_build.create_tlas n] := by
  induction l with
  | nil => simp [as_build.is_blas]
  | cons a l ih =>
    obtain ⟨ih1, ih2⟩ := ih
    constructor
    · simpa [as_build.is_blas] using ih1
    · simpa [as_build.is_blas] using ih2

/-- C3: for every model whose counts are 32-bit values, the number of BLAS builds
issued by the build loop equals `geom_count`, which equals the sum of `primitive_count`
over all meshes; exactly one TLAS build is issued and its instance count is that same
number; with 2 primitives in total there are exactly 2 BLAS builds and one TLAS build
with 2 instances. -/
theorem blas_count_eq_geom_count (model : vkrt_model) (h : model_counts_32bit model) :
    ((build_acceleration_structures model).filter as_build.is_blas).length = geom_count model ∧
    geom_count model = total_primitives model ∧
    (build_acceleration_structures model).filter (fun b => !b.is_blas)
      = [as_build.create_tlas (geom_count model)] ∧
    (total_primitives model = 2 →
      ((build_acceleration_structures model).filter as_build.is_blas).length = 2 ∧
      (build_acceleration_structures model).filter (fun b => !b.is_blas)
        = [as_build.create_tlas 2]) := by
  have hg := geom_count_eq_total model h
  have hf := filter_blas_builds (blases_loop model).2 (geom_count model)
  have hl := blases_loop_length model
  unfold build_acceleration_structures
  rw [hf.1, hf.2, List.length_map, hl, hg]
  refine ⟨rfl, rfl, rfl, ?_⟩
  intro h2
  rw [h2]
  exact ⟨rfl, rfl⟩

theorem sample_model_counts_32bit : model_counts_32bit sample_model := by
  constructor
  · decide
  · intro i _
    show 1 < 2 ^ 32
    decide

theorem blas_count_eq_geom_count_witness :
    model_counts_32bit sample_model ∧
    (((build_acceleration_structures sample_model).filter as_build.is_blas).length
      = geom_count sample_model ∧
    geom_count sample_model = total_primitives sample_model ∧
    (build_acceleration_structures sample_model).filter (fun b => !b.is_blas)
      = [as_build.create_tlas (geom_count sample_model)] ∧
    (total_primitives sample_model = 2 →
      ((build_acceleration_structures sample_model).filter as_build.is_blas).length = 2 ∧
      (build_acceleration_structures sample_model).filter (fun b => !b.is_blas)
        = [as_build.create_tlas 2])) :=
  ⟨sample_model_counts_32bit, blas_count_eq_geom_count sample_model sample_model_counts_32bit⟩

/-! ## Pipeline: proofs -/

/-- C10: the pipeline is created with 3 stages and 3 groups; group 0 is a general
group whose general shader is the ray-generation stage, group 1 a general group whose
general shader is the miss stage, group 2 a triangles-hit group whose closest-hit
shader is the closest-hit stage; each used index is below `stageCount` and every
other shader slot is `VK_SHADER_UNUSED_KHR`. -/
theorem pipeline_groups_fixed_order :
    pipeline_info.stageCount = 3 ∧ pipeline_info.pStages.length = 3 ∧
    pipeline_info.groupCount = 3 ∧
    pipeline_info.pGroups = [rgen_group, rmiss_group, rhit_group] ∧
    (rgen_group.type = .VK_RAY_TRACING_SHADER_GROUP_TYPE_GENERAL_KHR ∧
      rgen_group.generalShader < pipeline_info.stageCount ∧
      stage_of pipeline_info rgen_group.generalShader = some .VK_SHADER_STAGE_RAYGEN_BIT_KHR ∧
      rgen_group.closestHitShader = VK_SHADER_UNUSED_KHR ∧
      rgen_group.anyHitShader = VK_SHADER_UNUSED_KHR ∧
      rgen_group.intersectionShader = VK_SHADER_UNUSED_KHR) ∧
    (rmiss_group.type = .VK_RAY_TRACING_SHADER_GROUP_TYPE_GENERAL_KHR ∧
      rmiss_group.generalShader < pipeline_info.stageCount ∧
      stage_of pipeline_info rmiss_group.generalShader = some .VK_SHADER_STAGE_MISS_BIT_KHR ∧
      rmiss_group.closestHitShader = VK_SHADER_UNUSED_KHR ∧
      rmiss_group.anyHitShader = VK_SHADER_UNUSED_KHR ∧
      rmiss_group.intersectionShader = VK_SHADER_UNUSED_KHR) ∧
    (rhit_group.type = .VK_RAY_TRACING_SHADER_GROUP_TYPE_TRIANGLES_HIT_GROUP_KHR ∧
      rhit_group.closestHitShader < pipeline_info.stageCount ∧
      stage_of pipeline_info rhit_group.closestHitShader
        = some .VK_SHADER_STAGE_CLOSEST_HIT_BIT_KHR ∧
      rhit_group.generalShader = VK_SHADER_UNUSED_KHR ∧
      rhit_group.anyHitShader = VK_SHADER_UNUSED_KHR ∧
      rhit_group.intersectionShader = VK_SHADER_UNUSED_KHR) := by
  refine ⟨rfl, rfl, rfl, rfl, ⟨rfl, by decide, rfl, rfl, rfl, rfl⟩,
    ⟨rfl, by decide, rfl, rfl, rfl, rfl⟩, ⟨rfl, by decide, rfl, rfl, rfl, rfl⟩⟩

/-! ## Render loop: what each phase changes -/

theorem reset_phase_fields (s : loop_state) :
    (reset_phase s).done = s.done ∧ (reset_phase s).aborted = s.aborted ∧
    (reset_phase s).swapchain_resize = s.swapchain_resize ∧
    (reset_phase s).swapchain = s.swapchain ∧
    (reset_phase s).swapchains_built = s.swapchains_built ∧
    (reset_phase s).reset_accumulation = false ∧
    (reset_phase s).frame_number = if s.reset_accumulation then 0 else s.frame_number := by
  unfold reset_phase
  cases h : s.reset_accumulation <;> simp [h]

theorem resize_phase_fields (s : loop_state) :
    (resize_phase s).1.done = s.done ∧ (resize_phase s).1.aborted = s.aborted ∧
    (resize_phase s).1.swapchain_resize = false ∧
    (resize_phase s).1.reset_accumulation = s.reset_accumulation ∧
    (resize_phase s).1.frame_number = s.frame_number := by
  unfold resize_phase
  cases h : s.swapchain_resize <;> simp [h]

theorem poll_events_state (s : loop_state) (es : List SDL_Event) :
    ∃ w h, (poll_events s es).1 =
      { s with done := s.done || decide (SDL_Event.SDL_QUIT ∈ es),
               window_width := w, window_height := h } := by
  induction es generalizing s with
  | nil => exact ⟨s.window_width, s.window_height, by simp [poll_events]⟩
  | cons e es ih =>
    cases e with
    | SDL_QUIT =>
      obtain ⟨w, h, hp⟩ := ih { s with done := true }
      exact ⟨w, h, by simp [poll_events, handle_event, hp]⟩
    | SDL_WINDOWEVENT_RESIZED w0 h0 =>
      obtain ⟨w, h, hp⟩ := ih { s with window_width := w0, window_height := h0 }
      exact ⟨w, h, by simp [poll_events, handle_event, hp]⟩
    | SDL_WINDOWEVENT_OTHER =>
      obtain ⟨w, h, hp⟩ := ih s
      exact ⟨w, h, by simp [poll_events, handle_event, hp]⟩
    | SDL_OTHER =>
      obtain ⟨w, h, hp⟩ := ih s
      exact ⟨w, h, by simp [poll_events, handle_event, hp]⟩

theorem poll_events_fields (s : loop_state) (es : List SDL_Event) :
    (poll_events s es).1.done = (s.done || decide (SDL_Event.SDL_QUIT ∈ es)) ∧
    (poll_events s es).1.aborted = s.aborted ∧
    (poll_events s es).1.swapchain_resize = s.swapchain_resize ∧
    (poll_events s es).1.swapchain = s.swapchain ∧
    (poll_events s es).1.swapchains_built = s.swapchains_built ∧
    (poll_events s es).1.reset_accumulation = s.reset_accumulation ∧
    (poll_events s es).1.frame_number = s.frame_number := by
  obtain ⟨w, h, hp⟩ := poll_events_state s es
  rw [hp]
  simp

theorem poll_events_trace (s : loop_state) (es : List SDL_Event) :
    ∀ e ∈ (poll_events s es).2, ∃ w h, e = Event.sdl_get_window_size w h := by
  induction es generalizing s with
  | nil => simp [poll_events]
  | cons e es ih =>
    intro x hx
    cases e with
    | SDL_WINDOWEVENT_RESIZED w0 h0 =>
      simp only [poll_events, handle_event, List.singleton_append, List.mem_cons] at hx
      rcases hx with hx | hx
      · exact ⟨w0, h0, hx⟩
      · exact ih _ x hx
    | SDL_QUIT =>
      simp only [poll_events, handle_event, List.nil_append] at hx
      exact ih _ x hx
    | SDL_WINDOWEVENT_OTHER =>
      simp only [poll_events, handle_event, List.nil_append] at hx
      exact ih _ x hx
    | SDL_OTHER =>
      simp only [poll_events, handle_event, List.nil_append] at hx
      exact ih _ x hx

theorem imgui_phase_fields (s : loop_state) (inp : frame_input) :
    (imgui_phase s inp).done = s.done ∧ (imgui_phase s inp).aborted = s.aborted ∧
    (imgui_phase s inp).swapchain_resize = s.swapchain_resize ∧
    (imgui_phase s inp).swapchain = s.swapchain ∧
    (imgui_phase s inp).swapchains_built = s.swapchains_built ∧
    (imgui_phase s inp).frame_number = s.frame_number ∧
    (imgui_phase s inp).reset_accumulation
      = (if inp.ui_visible && inp.reset_clicked then !s.reset_accumulation
         else s.reset_accumulation) := by
  unfold imgui_phase
  cases h : (inp.ui_visible && inp.reset_clicked) <;> simp [h]

theorem frame_phase_fields (s : loop_state) (inp : frame_input) :
    (frame_phase s inp).1.done = s.done ∧
    (frame_phase s inp).1.swapchain = s.swapchain ∧
    (frame_phase s inp).1.swapchains_built = s.swapchains_built ∧
    (frame_phase s inp).1.reset_accumulation = s.reset_accumulation ∧
    (frame_phase s inp).1.frame_number = s.frame_number := by
  unfold frame_phase vkw_frame_cmd_begin
  cases inp.fence_signalled
  · simp
  · simp only [if_true]
    split_ifs <;> simp

theorem frame_phase_slot (s : loop_state) (inp : frame_input) :
    ∀ e ∈ (frame_phase s inp).2, e.slot = some (s.frame_number % 2) := by
  unfold frame_phase vkw_frame_cmd_begin vkw_frame_end_and_submit record_commands
  cases hf : inp.fence_signalled
  · simp [Event.slot]
  · simp only [if_true]
    split_ifs <;> simp [Event.slot]

theorem resize_phase_trace (s : loop_state) :
    ∀ e ∈ (resize_phase s).2, e.is_swapchain_lifecycle = true := by
  unfold resize_phase
  cases h : s.swapchain_resize <;> simp [Event.is_swapchain_lifecycle]

theorem split_before (e : Event) (l1 l2 pre post : List Event)
    (hl1 : ∀ x ∈ l1, x ≠ e) (h : l1 ++ l2 = pre ++ e :: post) :
    ∃ mid, pre = l1 ++ mid ∧ l2 = mid ++ e :: post := by
  induction l1 generalizing pre with
  | nil => exact ⟨pre, by simp, by simpa using h⟩
  | cons a l1 ih =>
    cases pre with
    | nil =>
      simp only [List.cons_append, List.nil_append, List.cons.injEq] at h
      exact absurd h.1 (hl1 a (by simp))
    | cons b pre =>
      simp only [List.cons_append, List.cons.injEq] at h
      obtain ⟨mid, h1, h2⟩ := ih pre (fun x hx => hl1 x (by simp [hx])) h.2
      exact ⟨mid, by simp [h.1, h1], h2⟩

theorem loop_body_frame_number (s : loop_state) (inp : frame_input) :
    (loop_body s inp).1.frame_number = (reset_phase s).frame_number := by
  unfold loop_body
  simp only [(frame_phase_fields _ _).2.2.2.2, (imgui_phase_fields _ _).2.2.2.2.2.1,
    (poll_events_fields _ _).2.2.2.2.2.2, (resize_phase_fields _).2.2.2.2]

/-- C4: in every iteration of the render loop, for every state it starts from, every
event that names a frame slot names slot `i mod 2`, where `i` is the frame counter of
that iteration, and that index is below `FRAME_OVERLAP`; and every command recorded
into a slot comes after the complete `begin` of that slot in the same iteration,
whose fence wait saw the fence signalled. -/
theorem record_only_after_begin (s : loop_state) (inp : frame_input) :
    (∀ e ∈ (loop_body s inp).2, ∀ k, e.slot = some k →
      k = (loop_body s inp).1.frame_number % 2 ∧ k < FRAME_OVERLAP) ∧
    (∀ pre slot cmd post, (loop_body s inp).2 = pre ++ Event.record slot cmd :: post →
      ∃ before after, pre = before ++ (vkw_frame_cmd_begin slot true).2 ++ after) := by
  have hfn := loop_body_frame_number s inp
  have hslot : ∀ e ∈ (loop_body s inp).2, ∀ k, e.slot = some k →
      k = (loop_body s inp).1.frame_number % 2 := by
    intro e he k hk
    rw [hfn]
    unfold loop_body at he
    simp only [List.mem_append] at he
    rcases he with (he | he) | he
    · have := resize_phase_trace _ e he
      cases e <;> simp [Event.is_swapchain_lifecycle, Event.slot] at this hk
    · obtain ⟨w, h, rfl⟩ := poll_events_trace _ _ e he
      simp [Event.slot] at hk
    · have := frame_phase_slot _ _ e he
      rw [this] at hk
      simp only [(imgui_phase_fields _ _).2.2.2.2.2.1,
        (poll_events_fields _ _).2.2.2.2.2.2, (resize_phase_fields _).2.2.2.2,
        Option.some.injEq] at hk
      exact hk.symm
  refine ⟨fun e he k hk => ⟨hslot e he k hk, ?_⟩, ?_⟩
  · rw [hslot e he k hk]
    exact Nat.mod_lt _ (by decide)
  · intro pre slot cmd post h
    have hk := hslot (Event.record slot cmd) (by rw [h]; simp) slot rfl
    rw [hfn] at hk
    unfold loop_body at h
    simp only [] at h
    obtain ⟨mid, hpre, hmid⟩ := split_before (Event.record slot cmd) _ _ pre post (by
      intro x hx
      simp only [List.mem_append] at hx
      rcases hx with hx | hx
      · have := resize_phase_trace _ x hx
        intro hxe
        subst hxe
        simp [Event.is_swapchain_lifecycle] at this
      · obtain ⟨w, h', rfl⟩ := poll_events_trace _ _ x hx
        simp) h
    have hfr : (imgui_phase (poll_events (resize_phase (reset_phase s)).1 inp.events).1
        inp).frame_number % 2 = slot := by
      simp only [(imgui_phase_fields _ _).2.2.2.2.2.1,
        (poll_events_fields _ _).2.2.2.2.2.2, (resize_phase_fields _).2.2.2.2]
      exact hk.symm
    unfold frame_phase at hmid
    simp only [hfr] at hmid
    cases hf : inp.fence_signalled
    · simp [hf, vkw_frame_cmd_begin] at hmid
      cases mid <;> simp at hmid
    · simp only [hf, vkw_frame_cmd_begin, if_true, Bool.true_eq_false, if_false] at hmid
      split_ifs at hmid with h1 h2
      · exfalso
        have : Event.record slot cmd ∈ mid ++ Event.record slot cmd :: post := by simp
        rw [← hmid] at this
        simp at this
      · obtain ⟨mid2, hm1, _⟩ := split_before (Event.record slot cmd)
          ([Event.wait_for_fence slot true, Event.reset_fence slot,
            Event.begin_command_buffer slot]) _ mid post (by simp) (by simpa using hmid)
        exact ⟨(resize_phase (reset_phase s)).2 ++
          (poll_events (resize_phase (reset_phase s)).1 inp.events).2, mid2,
          by rw [hpre, hm1]; simp [vkw_frame_cmd_begin]⟩
      · obtain ⟨mid2, hm1, _⟩ := split_before (Event.record slot cmd)
          ([Event.wait_for_fence slot true, Event.reset_fence slot,
            Event.begin_command_buffer slot]) _ mid post (by simp) (by simpa using hmid)
        exact ⟨(resize_phase (reset_phase s)).2 ++
          (poll_events (resize_phase (reset_phase s)).1 inp.events).2, mid2,
          by rw [hpre, hm1]; simp [vkw_frame_cmd_begin]⟩

/-! ## Skipped iterations -/

theorem loop_body_out_of_date (s : loop_state) (inp : frame_input)
    (hf : inp.fence_signalled = true)
    (ha : inp.acquire_result = VkResult.VK_ERROR_OUT_OF_DATE_KHR) :
    (loop_body s inp).1 =
      { imgui_phase (poll_events (resize_phase (reset_phase s)).1 inp.events).1 inp with
        swapchain_resize := true } ∧
    (loop_body s inp).2 =
      (resize_phase (reset_phase s)).2 ++
      (poll_events (resize_phase (reset_phase s)).1 inp.events).2 ++
      ((vkw_frame_cmd_begin ((reset_phase s).frame_number % 2) true).2 ++
        [Event.acquire_next_image (resize_phase (reset_phase s)).1.swapchain
          ((reset_phase s).frame_number % 2) VkResult.VK_ERROR_OUT_OF_DATE_KHR
          inp.image_index]) := by
  unfold loop_body frame_phase
  simp only [hf, ha, vkw_frame_cmd_begin, if_true, Bool.true_eq_false, if_false,
    (imgui_phase_fields _ _).2.2.2.2.2.1, (imgui_phase_fields _ _).2.2.2.1,
    (poll_events_fields _ _).2.2.2.2.2.2, (poll_events_fields _ _).2.2.2.1,
    (resize_phase_fields _).2.2.2.2, and_self]

theorem loop_body_aborted (s : loop_state) (inp : frame_input) :
    (loop_body s inp).1.aborted = (s.aborted || !inp.fence_signalled) := by
  unfold loop_body frame_phase vkw_frame_cmd_begin
  cases hf : inp.fence_signalled
  · simp
  · simp only [if_true, Bool.true_eq_false, if_false]
    split_ifs <;>
      simp [(imgui_phase_fields _ _).2.1, (poll_events_fields _ _).2.1,
        (resize_phase_fields _).2.1, (reset_phase_fields _).2.1]

theorem resize_phase_rebuilds (s : loop_state) (h : s.swapchain_resize = true) :
    (resize_phase s).2 =
      [Event.device_wait_idle, Event.destroy_swapchain s.swapchain,
       Event.build_swapchain s.swapchains_built s.window_width s.window_height] ∧
    (resize_phase s).1.swapchain = s.swapchains_built ∧
    (resize_phase s).1.swapchains_built = s.swapchains_built + 1 := by
  unfold resize_phase
  simp [h]

theorem resize_phase_idle (s : loop_state) (h : s.swapchain_resize = false) :
    resize_phase s = (s, []) := by
  unfold resize_phase
  simp [h]

/-- C5 as stated fails: starting the loop with an acquire that reports out-of-date,
the skipped iteration runs with frame number 0 and the next iteration, which rebuilds
the swapchain and acquires again, runs with frame number 1. -/
theorem skipped_iteration_advances_counter :
    frame_out_of_date.acquire_result = VkResult.VK_ERROR_OUT_OF_DATE_KHR ∧
    (loop_body initial_state frame_out_of_date).1.frame_number = 0 ∧
    (loop_body (loop_iteration initial_state frame_out_of_date).1 frame_ok).1.frame_number = 1 ∧
    (loop_body (loop_iteration initial_state frame_out_of_date).1 frame_ok).1.frame_number ≠
      (loop_body initial_state frame_out_of_date).1.frame_number := by
  decide

/-- C5, amended: in an iteration whose acquire reports out-of-date the resize flag is
set and the frame counter advances as in any other iteration: the next iteration
first rebuilds the swapchain and then runs with the skipped iteration's frame number
plus one (modulo `2 ^ 32`), or with 0 when the reset checkbox was ticked during the
skipped iteration. -/
theorem skipped_iteration_next_frame_number (s : loop_state) (inp nxt : frame_input)
    (hs : s.aborted = false) (hf : inp.fence_signalled = true)
    (ha : inp.acquire_result = VkResult.VK_ERROR_OUT_OF_DATE_KHR) :
    (loop_iteration s inp).1.swapchain_resize = true ∧
    (loop_body (loop_iteration s inp).1 nxt).1.frame_number =
      (if inp.ui_visible && inp.reset_clicked then 0
       else ((loop_body s inp).1.frame_number + 1) % 2 ^ 32) ∧
    ∃ rest, (loop_body (loop_iteration s inp).1 nxt).2 =
      Event.device_wait_idle :: Event.destroy_swapchain (loop_iteration s inp).1.swapchain ::
        Event.build_swapchain (loop_iteration s inp).1.swapchains_built
          (loop_iteration s inp).1.window_width (loop_iteration s inp).1.window_height ::
        rest := by
  have hab : (loop_body s inp).1.aborted = false := by
    rw [loop_body_aborted, hs, hf]; rfl
  have hbody := (loop_body_out_of_date s inp hf ha).1
  have hit : (loop_iteration s inp).1 =
      { (loop_body s inp).1 with
        frame_number := ((loop_body s inp).1.frame_number + 1) % 2 ^ 32 } := by
    unfold loop_iteration
    simp [hab]
  have hres : (loop_iteration s inp).1.swapchain_resize = true := by
    rw [hit, hbody]
  have hreset : (loop_iteration s inp).1.reset_accumulation =
      (inp.ui_visible && inp.reset_clicked) := by
    rw [hit, hbody]
    simp only [(imgui_phase_fields _ _).2.2.2.2.2.2, (poll_events_fields _ _).2.2.2.2.2.1,
      (resize_phase_fields _).2.2.2.1, (reset_phase_fields _).2.2.2.2.2.1]
    cases (inp.ui_visible && inp.reset_clicked) <;> simp
  have hfn : (loop_iteration s inp).1.frame_number =
      ((loop_body s inp).1.frame_number + 1) % 2 ^ 32 := by
    rw [hit]
  refine ⟨hres, ?_, ?_⟩
  · rw [loop_body_frame_number, (reset_phase_fields _).2.2.2.2.2.2, hreset, hfn]
  · have hres2 : (reset_phase (loop_iteration s inp).1).swapchain_resize = true := by
      rw [(reset_phase_fields _).2.2.1, hres]
    have hrb := (resize_phase_rebuilds _ hres2).1
    refine ⟨(poll_events (resize_phase (reset_phase (loop_iteration s inp).1)).1
        nxt.events).2 ++ (frame_phase (imgui_phase (poll_events
          (resize_phase (reset_phase (loop_iteration s inp).1)).1 nxt.events).1 nxt) nxt).2, ?_⟩
    unfold loop_body
    simp only [hrb]
    have e1 : (reset_phase (loop_iteration s inp).1).swapchain
        = (loop_iteration s inp).1.swapchain := (reset_phase_fields _).2.2.2.1
    have e2 : (reset_phase (loop_iteration s inp).1).swapchains_built
        = (loop_iteration s inp).1.swapchains_built := (reset_phase_fields _).2.2.2.2.1
    have e3 : (reset_phase (loop_iteration s inp).1).window_width
        = (loop_iteration s inp).1.window_width := by
      unfold reset_phase; split_ifs <;> rfl
    have e4 : (reset_phase (loop_iteration s inp).1).window_height
        = (loop_iteration s inp).1.window_height := by
      unfold reset_phase; split_ifs <;> rfl
    rw [e1, e2, e3, e4]
    simp

theorem skipped_iteration_next_frame_number_witness :
    (initial_state.aborted = false ∧ frame_out_of_date.fence_signalled = true ∧
      frame_out_of_date.acquire_result = VkResult.VK_ERROR_OUT_OF_DATE_KHR) ∧
    ((loop_iteration initial_state frame_out_of_date).1.swapchain_resize = true ∧
    (loop_body (loop_iteration initial_state frame_out_of_date).1 frame_ok).1.frame_number =
      (if frame_out_of_date.ui_visible && frame_out_of_date.reset_clicked then 0
       else ((loop_body initial_state frame_out_of_date).1.frame_number + 1) % 2 ^ 32) ∧
    ∃ rest, (loop_body (loop_iteration initial_state frame_out_of_date).1 frame_ok).2 =
      Event.device_wait_idle ::
        Event.destroy_swapchain (loop_iteration initial_state frame_out_of_date).1.swapchain ::
        Event.build_swapchain (loop_iteration initial_state frame_out_of_date).1.swapchains_built
          (loop_iteration initial_state frame_out_of_date).1.window_width
          (loop_iteration initial_state frame_out_of_date).1.window_height ::
        rest) :=
  ⟨by decide,
   skipped_iteration_next_frame_number initial_state frame_out_of_date frame_ok
     (by decide) (by decide) (by decide)⟩

/-! ## Fences -/

/-- C6, evaluated on the run whose first acquire reports out-of-date: two iterations
later the loop is back on slot 0, whose fence was reset by the skipped iteration and
never submitted again, so the wait in `begin` is on a fence nothing will signal; a
wait reporting it signalled is not possible, and with the wait expiring the process
is terminated. -/
theorem fence_dead_after_skipped_acquire :
    fence_waits_live initial_fences
      (render_loop initial_state [frame_out_of_date, frame_ok]).2 = true ∧
    (render_loop initial_state [frame_out_of_date, frame_ok]).1.aborted = false ∧
    (render_loop initial_state [frame_out_of_date, frame_ok]).1.frame_number % 2 = 0 ∧
    fences_after initial_fences
      (render_loop initial_state [frame_out_of_date, frame_ok]).2 0
        = fence_state.unsignalled ∧
    fence_waits_live initial_fences
      (render_loop initial_state [frame_out_of_date, frame_ok, frame_ok]).2 = false ∧
    fence_reports_possible initial_fences
      (render_loop initial_state [frame_out_of_date, frame_ok, frame_ok]).2 = false ∧
    fence_reports_possible initial_fences
      (render_loop initial_state [frame_out_of_date, frame_ok, frame_fence_expired]).2 = true ∧
    (render_loop initial_state
      [frame_out_of_date, frame_ok, frame_fence_expired]).1.aborted = true := by
  decide

/-! ## Stale swapchain -/

theorem no_stale_use_append (step : Bool → Event → Bool) (t1 t2 : List Event) (st : Bool) :
    no_stale_use step st (t1 ++ t2) =
      (no_stale_use step st t1 && no_stale_use step (stale_after step st t1) t2) ∧
    stale_after step st (t1 ++ t2) = stale_after step (stale_after step st t1) t2 := by
  induction t1 generalizing st with
  | nil => simp [no_stale_use, stale_after]
  | cons e t1 ih =>
    have h := ih (step st e)
    simp [no_stale_use, stale_after, h.1, h.2, Bool.and_assoc]

theorem no_stale_use_neutral (step : Bool → Event → Bool) (t : List Event) (st : Bool)
    (h : ∀ e ∈ t, e.uses_swapchain = false ∧ step st e = st) :
    no_stale_use step st t = true ∧ stale_after step st t = st := by
  induction t with
  | nil => simp [no_stale_use, stale_after]
  | cons e t ih =>
    have he := h e (by simp)
    have ih' := ih (fun x hx => h x (by simp [hx]))
    simp only [no_stale_use, stale_after, he.1, he.2, ih'.1, ih'.2]
    simp

theorem resize_phase_stale (s : loop_state) :
    no_stale_use stale_step_reported s.swapchain_resize (resize_phase s).2 = true ∧
    stale_after stale_step_reported s.swapchain_resize (resize_phase s).2 = false := by
  unfold resize_phase
  cases h : s.swapchain_resize <;>
    simp [no_stale_use, stale_after, stale_step_reported, Event.uses_swapchain]

theorem frame_phase_stale (s : loop_state) (inp : frame_input)
    (h : s.swapchain_resize = false) :
    no_stale_use stale_step_reported false (frame_phase s inp).2 = true ∧
    stale_after stale_step_reported false (frame_phase s inp).2
      = (frame_phase s inp).1.swapchain_resize := by
  unfold frame_phase vkw_frame_cmd_begin vkw_frame_end_and_submit record_commands
  cases hf : inp.fence_signalled
  · simp [no_stale_use, stale_after, stale_step_reported, Event.uses_swapchain, h]
  · simp only [if_true, Bool.true_eq_false, if_false]
    split_ifs <;>
      simp [no_stale_use, stale_after, stale_step_reported, Event.uses_swapchain, *]

theorem loop_body_stale (s : loop_state) (inp : frame_input) :
    no_stale_use stale_step_reported s.swapchain_resize (loop_body s inp).2 = true ∧
    stale_after stale_step_reported s.swapchain_resize (loop_body s inp).2
      = (loop_body s inp).1.swapchain_resize := by
  have hr := resize_phase_stale (reset_phase s)
  rw [(reset_phase_fields s).2.2.1] at hr
  have hp := no_stale_use_neutral stale_step_reported
    (poll_events (resize_phase (reset_phase s)).1 inp.events).2 false (by
      intro e he
      obtain ⟨w, h, rfl⟩ := poll_events_trace _ _ e he
      simp [Event.uses_swapchain, stale_step_reported])
  have hf := frame_phase_stale
    (imgui_phase (poll_events (resize_phase (reset_phase s)).1 inp.events).1 inp) inp (by
      rw [(imgui_phase_fields _ _).2.2.1, (poll_events_fields _ _).2.2.1,
        (resize_phase_fields _).2.2.1])
  unfold loop_body
  simp only [(no_stale_use_append _ _ _ _).1, (no_stale_use_append _ _ _ _).2, hr.1, hr.2,
    hp.1, hp.2, hf.1, hf.2, Bool.and_self, and_self]

theorem loop_iteration_fields (s : loop_state) (inp : frame_input) :
    (loop_iteration s inp).2 = (loop_body s inp).2 ∧
    (loop_iteration s inp).1.done = (loop_body s inp).1.done ∧
    (loop_iteration s inp).1.aborted = (loop_body s inp).1.aborted ∧
    (loop_iteration s inp).1.swapchain_resize = (loop_body s inp).1.swapchain_resize ∧
    (loop_iteration s inp).1.swapchain = (loop_body s inp).1.swapchain ∧
    (loop_iteration s inp).1.swapchains_built = (loop_body s inp).1.swapchains_built := by
  cases h : (loop_body s inp).1.aborted <;> simp [loop_iteration, h]

theorem render_loop_stale (inputs : List frame_input) (s : loop_state) :
    no_stale_use stale_step_reported s.swapchain_resize (render_loop s inputs).2 = true := by
  induction inputs generalizing s with
  | nil => simp [render_loop, no_stale_use]
  | cons inp rest ih =>
    unfold render_loop
    split_ifs with hd
    · simp [no_stale_use]
    · have hb := loop_body_stale s inp
      have hit := loop_iteration_fields s inp
      simp only [(no_stale_use_append _ _ _ _).1, hit.1, hb.1, hb.2, ← hit.2.2.2.1, ih,
        Bool.and_self]

/-- C7 as stated fails: in an iteration that processes a window-resized event the
loop goes on to acquire (and present) on the swapchain built before the resize. -/
theorem acquire_after_window_resize :
    no_stale_use stale_step_resized_or_reported false
      (render_loop initial_state [frame_resized]).2 = false ∧
    (render_loop initial_state [frame_resized]).2.take 5 =
      [Event.sdl_get_window_size 800 600, Event.wait_for_fence 0 true, Event.reset_fence 0,
       Event.begin_command_buffer 0,
       Event.acquire_next_image 0 0 VkResult.VK_SUCCESS 0] := by
  decide

/-- C7, amended: in every run of the render loop no acquire or present is issued
against a swapchain that an acquire or present has reported out-of-date, until that
swapchain has been destroyed and rebuilt. -/
theorem no_use_of_reported_stale_swapchain (inputs : List frame_input) :
    no_stale_use stale_step_reported false (render_loop initial_state inputs).2 = true :=
  render_loop_stale inputs initial_state

/-! ## Swapchain rebuilds -/

theorem not_lifecycle_of_slot (e : Event) (k : Nat) (h : e.slot = some k) :
    e.is_swapchain_lifecycle = false := by
  cases e <;> simp [Event.slot] at h <;> rfl

theorem loop_body_lifecycle (s : loop_state) (inp : frame_input) :
    (loop_body s inp).2.filter Event.is_swapchain_lifecycle = (resize_phase (reset_phase s)).2 := by
  unfold loop_body
  have h1 : (resize_phase (reset_phase s)).2.filter Event.is_swapchain_lifecycle
      = (resize_phase (reset_phase s)).2 :=
    List.filter_eq_self.2 (resize_phase_trace _)
  have h2 : (poll_events (resize_phase (reset_phase s)).1 inp.events).2.filter
      Event.is_swapchain_lifecycle = [] := by
    apply List.filter_eq_nil_iff.2
    intro e he
    obtain ⟨w, h, rfl⟩ := poll_events_trace _ _ e he
    simp [Event.is_swapchain_lifecycle]
  have h3 : (frame_phase (imgui_phase (poll_events (resize_phase (reset_phase s)).1
      inp.events).1 inp) inp).2.filter Event.is_swapchain_lifecycle = [] := by
    apply List.filter_eq_nil_iff.2
    intro e he
    rw [not_lifecycle_of_slot e _ (frame_phase_slot _ _ e he)]
    simp
  simp only [List.filter_append, h1, h2, h3, List.append_nil]

theorem loop_body_swapchain (s : loop_state) (inp : frame_input) :
    (loop_body s inp).1.swapchain = (resize_phase (reset_phase s)).1.swapchain ∧
    (loop_body s inp).1.swapchains_built = (resize_phase (reset_phase s)).1.swapchains_built ∧
    (loop_body s inp).1.done = (s.done || decide (SDL_Event.SDL_QUIT ∈ inp.events)) := by
  unfold loop_body
  simp only [(frame_phase_fields _ _).2.1, (frame_phase_fields _ _).2.2.1,
    (frame_phase_fields _ _).1, (imgui_phase_fields _ _).1, (imgui_phase_fields _ _).2.2.2.1,
    (imgui_phase_fields _ _).2.2.2.2.1, (poll_events_fields _ _).1,
    (poll_events_fields _ _).2.2.2.1, (poll_events_fields _ _).2.2.2.2.1,
    (resize_phase_fields _).1, (reset_phase_fields _).1, and_self]

theorem count_rebuilds_resize (s : loop_state) (t : List Event) :
    count_rebuilds ((resize_phase s).2 ++ t) =
      (count_rebuilds t).map (fun n => n + (if s.swapchain_resize then 1 else 0)) := by
  unfold resize_phase
  cases h : s.swapchain_resize
  · simp
  · simp [count_rebuilds]

theorem out_of_date_iteration (s : loop_state) (inp : frame_input)
    (hd : s.done = false) (hab : s.aborted = false)
    (hf : inp.fence_signalled = true)
    (ha : inp.acquire_result = VkResult.VK_ERROR_OUT_OF_DATE_KHR)
    (hq : SDL_Event.SDL_QUIT ∉ inp.events) :
    (loop_iteration s inp).1.done = false ∧ (loop_iteration s inp).1.aborted = false ∧
    (loop_iteration s inp).1.swapchain_resize = true ∧
    ∀ e ∈ (loop_iteration s inp).2, e.is_frame_work = false := by
  have hit := loop_iteration_fields s inp
  have hbody := loop_body_out_of_date s inp hf ha
  refine ⟨?_, ?_, ?_, ?_⟩
  · rw [hit.2.1, (loop_body_swapchain s inp).2.2, hd]
    simp [hq]
  · rw [hit.2.2.1, loop_body_aborted, hab, hf]
    rfl
  · rw [hit.2.2.2.1, hbody.1]
  · rw [hit.1, hbody.2]
    intro e he
    simp only [List.mem_append] at he
    rcases he with (he | he) | he
    · have := resize_phase_trace _ e he
      cases e <;> simp [Event.is_swapchain_lifecycle] at this <;> rfl
    · obtain ⟨w, h, rfl⟩ := poll_events_trace _ _ e he
      rfl
    · simp only [vkw_frame_cmd_begin, if_true, List.cons_append, List.nil_append,
        List.mem_cons, List.mem_singleton, List.not_mem_nil, or_false] at he
      rcases he with (rfl | rfl | rfl) | rfl <;> rfl

theorem out_of_date_run (inputs : List frame_input) (s : loop_state) (nxt : frame_input)
    (hd : s.done = false) (hab : s.aborted = false)
    (hin : ∀ inp ∈ inputs, inp.fence_signalled = true ∧
      inp.acquire_result = VkResult.VK_ERROR_OUT_OF_DATE_KHR ∧
      SDL_Event.SDL_QUIT ∉ inp.events) :
    rebuilds_in (render_loop s (inputs ++ [nxt])).2
      = some (inputs.length + (if s.swapchain_resize then 1 else 0)) ∧
    (∀ e ∈ (render_loop s inputs).2, e.is_frame_work = false) := by
  have hrun : (s.done || s.aborted) = false := by simp [hd, hab]
  induction inputs generalizing s with
  | nil =>
    constructor
    · simp only [List.nil_append, render_loop, hrun, Bool.false_eq_true, if_false,
        List.append_nil, rebuilds_in, (loop_iteration_fields s nxt).1, loop_body_lifecycle,
        List.length_nil, Nat.zero_add]
      have := count_rebuilds_resize (reset_phase s) []
      rw [List.append_nil, (reset_phase_fields s).2.2.1] at this
      rw [this]
      simp [count_rebuilds]
    · simp [render_loop]
  | cons inp rest ih =>
    obtain ⟨hf, ha, hq⟩ := hin inp (by simp)
    obtain ⟨h1, h2, h3, h4⟩ := out_of_date_iteration s inp hd hab hf ha hq
    have ih' := ih (loop_iteration s inp).1 h1 h2 (fun x hx => hin x (by simp [hx]))
      (by simp [h1, h2])
    constructor
    · simp only [List.cons_append, render_loop, hrun, Bool.false_eq_true, if_false, rebuilds_in,
        List.filter_append, (loop_iteration_fields s inp).1, loop_body_lifecycle,
        List.append_eq]
      have := count_rebuilds_resize (reset_phase s)
        ((render_loop (loop_iteration s inp).1 (rest ++ [nxt])).2.filter
          Event.is_swapchain_lifecycle)
      rw [(reset_phase_fields s).2.2.1] at this
      rw [this]
      have ih1 := ih'.1
      unfold rebuilds_in at ih1
      rw [ih1, h3]
      simp only [if_true, Option.map_some', List.length_cons]
    · intro e he
      simp only [render_loop, hrun, Bool.false_eq_true, if_false, List.mem_append] at he
      rcases he with he | he
      · exact h4 e he
      · exact ih'.2 e he

/-! ## Swapchain objects over a whole run, and the teardown -/

theorem countP_lifecycle (p : Event → Bool) (t : List Event)
    (hp : ∀ e, p e = true → e.is_swapchain_lifecycle = true) :
    t.countP p = (t.filter Event.is_swapchain_lifecycle).countP p := by
  rw [List.countP_filter]
  congr 1
  funext e
  cases h : p e
  · simp
  · simp [hp e h]

theorem builds_lifecycle (id : Nat) (e : Event) (h : e.builds id = true) :
    e.is_swapchain_lifecycle = true := by
  cases e <;> simp [Event.builds] at h
  rfl

theorem destroys_lifecycle (id : Nat) (e : Event) (h : e.destroys id = true) :
    e.is_swapchain_lifecycle = true := by
  cases e <;> simp [Event.destroys] at h
  rfl

theorem loop_iteration_accounts (s : loop_state) (inp : frame_input) (t0 : List Event)
    (h : swapchain_accounts s t0) :
    swapchain_accounts (loop_iteration s inp).1 (t0 ++ (loop_iteration s inp).2) := by
  obtain ⟨hlt, hc⟩ := h
  have hit := loop_iteration_fields s inp
  have hsw := loop_body_swapchain s inp
  have hlife := loop_body_lifecycle s inp
  have hrf := reset_phase_fields s
  unfold swapchain_accounts
  rw [hit.2.2.2.2.1, hit.2.2.2.2.2, hit.1, hsw.1, hsw.2.1]
  have hb : ∀ id, (loop_body s inp).2.countP (Event.builds id)
      = (resize_phase (reset_phase s)).2.countP (Event.builds id) := by
    intro id
    rw [countP_lifecycle _ _ (builds_lifecycle id), hlife]
  have hd : ∀ id, (loop_body s inp).2.countP (Event.destroys id)
      = (resize_phase (reset_phase s)).2.countP (Event.destroys id) := by
    intro id
    rw [countP_lifecycle _ _ (destroys_lifecycle id), hlife]
  cases hr : s.swapchain_resize
  · have hidle := resize_phase_idle (reset_phase s) (by rw [hrf.2.2.1, hr])
    refine ⟨by rw [hidle, hrf.2.2.2.1, hrf.2.2.2.2.1]; exact hlt, ?_⟩
    intro id
    rw [List.countP_append, List.countP_append, hb, hd, hidle, hrf.2.2.2.1, hrf.2.2.2.2.1]
    simpa using hc id
  · have hrb := resize_phase_rebuilds (reset_phase s) (by rw [hrf.2.2.1, hr])
    rw [hrf.2.2.2.1, hrf.2.2.2.2.1] at hrb
    refine ⟨by rw [hrb.2.1, hrb.2.2]; omega, ?_⟩
    intro id
    rw [List.countP_append, List.countP_append, hb, hd, hrb.1, hrb.2.1, hrb.2.2, (hc id).1,
      (hc id).2]
    simp only [List.countP_cons, List.countP_nil, Event.builds, Event.destroys]
    constructor
    · by_cases h1 : id < s.swapchains_built
      · have h2 : s.swapchains_built ≠ id := by omega
        have h3 : id < s.swapchains_built + 1 := by omega
        simp [h1, h2, h3]
      · by_cases h2 : s.swapchains_built = id
        · have h3 : id < s.swapchains_built + 1 := by omega
          simp [h1, h2, h3]
        · have h3 : ¬ id < s.swapchains_built + 1 := by omega
          simp [h1, h2, h3]
    · by_cases h1 : s.swapchain = id
      · have h2 : id < s.swapchains_built := by omega
        have h3 : id < s.swapchains_built + 1 := by omega
        have h4 : id ≠ s.swapchains_built := by omega
        simp [h1, h2, h3, h4]
      · have h1' : id ≠ s.swapchain := fun h => h1 h.symm
        by_cases h2 : id < s.swapchains_built
        · have h3 : id < s.swapchains_built + 1 := by omega
          have h4 : id ≠ s.swapchains_built := by omega
          simp [h1, h1', h2, h3, h4]
        · by_cases h4 : id = s.swapchains_built
          · have h5 : s.swapchain ≠ s.swapchains_built := by omega
            simp [h1, h1', h2, h4, h5]
          · have h3 : ¬ id < s.swapchains_built + 1 := by omega
            simp [h1, h1', h2, h3, h4]

theorem render_loop_accounts (inputs : List frame_input) (s : loop_state) (t0 : List Event)
    (h : swapchain_accounts s t0) :
    swapchain_accounts (render_loop s inputs).1 (t0 ++ (render_loop s inputs).2) := by
  induction inputs generalizing s t0 with
  | nil => simpa [render_loop] using h
  | cons inp rest ih =>
    unfold render_loop
    split_ifs with hd
    · simpa using h
    · have h1 := ih _ _ (loop_iteration_accounts s inp t0 h)
      simpa [List.append_assoc] using h1

theorem destroy_blases_loop_events (fuel i geom_count : Nat) (l : List Event)
    (h : destroy_blases_loop fuel i geom_count = some l) :
    ∀ e ∈ l, ∃ k, e = Event.destroy_as (AccelStruct.blas k) := by
  induction fuel generalizing i l with
  | zero => simp [destroy_blases_loop] at h
  | succ fuel ih =>
    unfold destroy_blases_loop at h
    split_ifs at h with hlt
    · obtain ⟨l2, hrec, rfl⟩ := Option.map_eq_some'.1 h
      intro e he
      simp only [List.mem_cons] at he
      rcases he with rfl | he
      · exact ⟨i, rfl⟩
      · exact ih _ _ hrec e he
    · simp only [Option.some.injEq] at h
      subst h
      simp

theorem destroy_blases_loop_eq (fuel i geom_count : Nat) (hi : i ≤ geom_count)
    (hg : geom_count < 2 ^ 32) (hfuel : geom_count - i < fuel) :
    destroy_blases_loop fuel i geom_count =
      some ((List.range' i (geom_count - i)).map (fun k => Event.destroy_as (AccelStruct.blas k))) := by
  induction fuel generalizing i with
  | zero => omega
  | succ fuel ih =>
    unfold destroy_blases_loop
    by_cases hlt : i < geom_count
    · have hmod : (i + 1) % 2 ^ 32 = i + 1 := Nat.mod_eq_of_lt (by omega)
      have hrec := ih (i + 1) (by omega) (by omega)
      have hsplit : geom_count - i = (geom_count - (i + 1)) + 1 := by omega
      rw [if_pos hlt, hmod, hrec, hsplit, List.range'_succ]
      simp
    · have : geom_count - i = 0 := by omega
      rw [if_neg hlt, this]
      simp

theorem teardown_eq (fuel geom_count swapchain : Nat) (hg : geom_count < 2 ^ 32)
    (hfuel : geom_count < fuel) :
    teardown fuel geom_count swapchain = some (
      [Event.device_wait_idle, Event.destroy_as AccelStruct.tlas] ++
      (List.range geom_count).map (fun k => Event.destroy_as (AccelStruct.blas k)) ++
      [ Event.free_blases,
        Event.memory_free MemoryBlock.sbt_rgen_buffer,
        Event.memory_free MemoryBlock.sbt_rmiss_buffer,
        Event.memory_free MemoryBlock.sbt_rchit_buffer,
        Event.memory_free MemoryBlock.geometry_nodes,
        Event.free_model,
        Event.destroy_pipeline,
        Event.destroy_pipeline_layout,
        Event.destroy_descriptor_set_layout,
        Event.frame_data_destroy 0,
        Event.frame_data_destroy 1,
        Event.imgui_destroy_fonts_texture,
        Event.destroy_imgui_pool,
        Event.imgui_shutdown,
        Event.immediate_submit_buffer_destroy,
        Event.image_destroy,
        Event.descriptor_allocator_destroy,
        Event.vma_destroy_allocator,
        Event.destroy_swapchain swapchain,
        Event.destroy_surface,
        Event.destroy_device,
        Event.destroy_debug_utils_messenger,
        Event.destroy_instance,
        Event.sdl_destroy_window,
        Event.sdl_vulkan_unload_library,
        Event.sdl_quit ]) := by
  unfold teardown
  rw [destroy_blases_loop_eq fuel 0 geom_count (Nat.zero_le _) hg (by omega), Nat.sub_zero,
    ← List.range_eq_range']
  rfl

/-- C9: for every run in which the loop exits through `done`, with a BLAS count that
the 32-bit counter of the destroy loop can reach and enough fuel for that loop, the
program goes on to the teardown; the teardown starts with the device-idle wait, and
its steps named by the shutdown contract occur exactly in the contract's order: idle
wait, TLAS, the `geom_count` BLAS in index order, the three SBT regions, the geometry
buffer, the model, pipeline, pipeline layout, descriptor-set layout, both frame slots,
output image, descriptor allocator, memory allocator, swapchain, surface, device,
instance. -/
theorem teardown_in_shutdown_order (fuel geom_count : Nat) (inputs : List frame_input)
    (hg : geom_count < 2 ^ 32) (hfuel : geom_count < fuel)
    (hdone : (render_loop initial_state inputs).1.done = true)
    (hab : (render_loop initial_state inputs).1.aborted = false) :
    ∃ td, teardown fuel geom_count (render_loop initial_state inputs).1.swapchain = some td ∧
      main_trace fuel geom_count inputs =
        some (Event.build_swapchain 0 1280 720 ::
          ((render_loop initial_state inputs).2 ++ td)) ∧
      td.head? = some Event.device_wait_idle ∧
      td.filter Event.in_shutdown_contract =
        shutdown_order geom_count (render_loop initial_state inputs).1.swapchain := by
  have htd := teardown_eq fuel geom_count (render_loop initial_state inputs).1.swapchain hg hfuel
  refine ⟨_, htd, ?_, rfl, ?_⟩
  · unfold main_trace
    simp only [hdone, hab, htd]
    rfl
  · have hmap : ((List.range geom_count).map
        (fun k => Event.destroy_as (AccelStruct.blas k))).filter Event.in_shutdown_contract
        = (List.range geom_count).map (fun k => Event.destroy_as (AccelStruct.blas k)) := by
      apply List.filter_eq_self.2
      intro e he
      obtain ⟨k, _, rfl⟩ := List.mem_map.1 he
      rfl
    simp only [List.filter_append, hmap]
    rfl

theorem teardown_in_shutdown_order_witness :
    (2 < 2 ^ 32 ∧ 2 < 3 ∧ (render_loop initial_state [frame_quit]).1.done = true ∧
      (render_loop initial_state [frame_quit]).1.aborted = false) ∧
    ∃ td, teardown 3 2 (render_loop initial_state [frame_quit]).1.swapchain = some td ∧
      main_trace 3 2 [frame_quit] =
        some (Event.build_swapchain 0 1280 720 ::
          ((render_loop initial_state [frame_quit]).2 ++ td)) ∧
      td.head? = some Event.device_wait_idle ∧
      td.filter Event.in_shutdown_contract =
        shutdown_order 2 (render_loop initial_state [frame_quit]).1.swapchain :=
  ⟨by decide,
   teardown_in_shutdown_order 3 2 [frame_quit] (by decide) (by decide) (by decide) (by decide)⟩


theorem whole_run_accounts (fuel geom_count : Nat) (run : List frame_input) (t : List Event)
    (h : main_trace fuel geom_count run = some t) (id : Nat) :
    t.countP (Event.builds id) ≤ 1 ∧
    t.countP (Event.destroys id) = t.countP (Event.builds id) := by
  unfold main_trace at h
  simp only [] at h
  split_ifs at h with hc
  obtain ⟨td, htd, rfl⟩ := Option.map_eq_some'.1 h
  unfold teardown at htd
  obtain ⟨bl, hbl, rfl⟩ := Option.map_eq_some'.1 htd
  have hblev := destroy_blases_loop_events _ _ _ _ hbl
  have hbl1 : bl.countP (Event.builds id) = 0 := by
    apply List.countP_eq_zero.2
    intro e he
    obtain ⟨k, rfl⟩ := hblev e he
    simp [Event.builds]
  have hbl2 : bl.countP (Event.destroys id) = 0 := by
    apply List.countP_eq_zero.2
    intro e he
    obtain ⟨k, rfl⟩ := hblev e he
    simp [Event.destroys]
  have hbase : swapchain_accounts initial_state [Event.build_swapchain 0 1280 720] := by
    refine ⟨by decide, fun j => ?_⟩
    by_cases hj : j = 0
    · subst hj
      simp [initial_state, Event.builds, Event.destroys]
    · have hj' : ¬ (0 = j) := fun h => hj h.symm
      have hj2 : ¬ j < 1 := by omega
      simp [initial_state, Event.builds, Event.destroys, hj, hj', hj2]
  obtain ⟨hlt, hcnt⟩ := render_loop_accounts run initial_state _ hbase
  have hb := (hcnt id).1
  have hd := (hcnt id).2
  rw [List.singleton_append] at hb hd
  have eb : ∀ (p : Event → Bool) (td : List Event),
      (Event.build_swapchain 0 1280 720 :: ((render_loop initial_state run).2 ++ td)).countP p
        = (Event.build_swapchain 0 1280 720 :: (render_loop initial_state run).2).countP p
          + td.countP p := by
    intro p td
    rw [← List.cons_append, List.countP_append]
  rw [eb, eb, hb, hd]
  simp only [List.countP_append, hbl1, hbl2, List.countP_cons, List.countP_nil, Event.builds,
    Event.destroys]
  by_cases h1 : (render_loop initial_state run).1.swapchain = id
  · have h2 : id < (render_loop initial_state run).1.swapchains_built := by omega
    simp [h1, h2]
  · have h1' : id ≠ (render_loop initial_state run).1.swapchain := fun h => h1 h.symm
    by_cases h2 : id < (render_loop initial_state run).1.swapchains_built
    · simp [h1, h1', h2]
    · simp [h1, h1', h2]

/-- C8 as stated fails: when the window is closed in the iteration whose acquire
reports out-of-date, the loop exits and that signal is followed by no rebuild; the
only swapchain events of the whole run are the build of setup and the destroy of
teardown. -/
theorem no_rebuild_when_closed_during_signal :
    Event.acquire_next_image 0 0 VkResult.VK_ERROR_OUT_OF_DATE_KHR 0 ∈
      (render_loop initial_state [frame_quit_out_of_date]).2 ∧
    (render_loop initial_state [frame_quit_out_of_date]).1.done = true ∧
    rebuilds_in (render_loop initial_state [frame_quit_out_of_date, frame_ok]).2 = some 0 ∧
    rebuilds_in (render_loop initial_state [frame_quit_out_of_date, frame_ok]).2 ≠ some 1 ∧
    (main_trace 1 0 [frame_quit_out_of_date, frame_ok]).map
        (List.filter Event.is_swapchain_lifecycle) =
      some [Event.build_swapchain 0 1280 720, Event.device_wait_idle,
            Event.destroy_swapchain 0] := by
  decide

/-- C8, amended: for every N, when N consecutive iterations each get through `begin`,
have their acquire report out-of-date and poll no quit event, and the loop was not
already waiting to rebuild, then those iterations together with the one that follows
contain exactly N swapchain rebuilds, each a device-idle wait, then the destroy, then
the build, and nothing else touching a swapchain object; the N signalling iterations
record no command, submit nothing and present nothing; and in every run that reaches
the end of teardown each swapchain object is built at most once and destroyed exactly
as often as it was built. -/
theorem rebuild_per_out_of_date_signal (inputs : List frame_input) (s : loop_state)
    (nxt : frame_input)
    (hd : s.done = false) (hab : s.aborted = false) (hres : s.swapchain_resize = false)
    (hin : ∀ inp ∈ inputs, inp.fence_signalled = true ∧
      inp.acquire_result = VkResult.VK_ERROR_OUT_OF_DATE_KHR ∧
      SDL_Event.SDL_QUIT ∉ inp.events) :
    rebuilds_in (render_loop s (inputs ++ [nxt])).2 = some inputs.length ∧
    (∀ e ∈ (render_loop s inputs).2, e.is_frame_work = false) ∧
    (∀ fuel geom_count run t, main_trace fuel geom_count run = some t →
      ∀ id, t.countP (Event.builds id) ≤ 1 ∧
        t.countP (Event.destroys id) = t.countP (Event.builds id)) := by
  have h := out_of_date_run inputs s nxt hd hab hin
  rw [hres] at h
  exact ⟨by simpa using h.1, h.2, fun fuel geom_count run t ht id =>
    whole_run_accounts fuel geom_count run t ht id⟩

theorem rebuild_per_out_of_date_signal_witness :
    (initial_state.done = false ∧ initial_state.aborted = false ∧
      initial_state.swapchain_resize = false ∧
      ∀ inp ∈ [frame_out_of_date, frame_out_of_date], inp.fence_signalled = true ∧
        inp.acquire_result = VkResult.VK_ERROR_OUT_OF_DATE_KHR ∧
        SDL_Event.SDL_QUIT ∉ inp.events) ∧
    (rebuilds_in (render_loop initial_state
        ([frame_out_of_date, frame_out_of_date] ++ [frame_fence_expired])).2
      = some [frame_out_of_date, frame_out_of_date].length ∧
    (∀ e ∈ (render_loop initial_state [frame_out_of_date, frame_out_of_date]).2,
      e.is_frame_work = false) ∧
    (∀ fuel geom_count run t, main_trace fuel geom_count run = some t →
      ∀ id, t.countP (Event.builds id) ≤ 1 ∧
        t.countP (Event.destroys id) = t.countP (Event.builds id))) :=
  ⟨by decide,
   rebuild_per_out_of_date_signal [frame_out_of_date, frame_out_of_date] initial_state
     frame_fence_expired (by decide) (by decide) (by decide) (by decide)⟩

/-! ## Descriptor pool: proofs -/

/-- C11, evaluated on the arguments of lines 316-320: the pool is created from the
single entry `STORAGE_IMAGE, 1` with `max_sets` 10 before the model is loaded.  With
one pool size per entry it holds 10 storage-image descriptors and no
acceleration-structure, storage-buffer or combined-image-sampler descriptor, so it
covers the layout for no texture count; and whatever an allocator makes of these
arguments, a model with one texture more than the pool has samplers is not covered. -/
theorem descriptor_pool_misses_layout_types :
    ds_alloc init_per_ratio VkDescriptorType.VK_DESCRIPTOR_TYPE_STORAGE_IMAGE = 10 ∧
    ds_alloc init_per_ratio VkDescriptorType.VK_DESCRIPTOR_TYPE_ACCELERATION_STRUCTURE_KHR = 0 ∧
    ds_alloc init_per_ratio VkDescriptorType.VK_DESCRIPTOR_TYPE_STORAGE_BUFFER = 0 ∧
    ds_alloc init_per_ratio VkDescriptorType.VK_DESCRIPTOR_TYPE_COMBINED_IMAGE_SAMPLER = 0 ∧
    (∀ texture_count,
      descriptors_needed (rt_layout texture_count)
          VkDescriptorType.VK_DESCRIPTOR_TYPE_ACCELERATION_STRUCTURE_KHR = 1 ∧
      descriptors_needed (rt_layout texture_count)
          VkDescriptorType.VK_DESCRIPTOR_TYPE_STORAGE_IMAGE = 1 ∧
      descriptors_needed (rt_layout texture_count)
          VkDescriptorType.VK_DESCRIPTOR_TYPE_STORAGE_BUFFER = 2 ∧
      descriptors_needed (rt_layout texture_count)
          VkDescriptorType.VK_DESCRIPTOR_TYPE_COMBINED_IMAGE_SAMPLER = texture_count ∧
      ¬ pool_covers (ds_alloc init_per_ratio) (rt_layout texture_count)) ∧
    (∀ init : allocator_init,
      ¬ pool_covers (ds_alloc init)
        (rt_layout (ds_alloc init VkDescriptorType.VK_DESCRIPTOR_TYPE_COMBINED_IMAGE_SAMPLER + 1))) := by
  refine ⟨by decide, by decide, by decide, by decide, ?_, ?_⟩
  · intro texture_count
    refine ⟨by simp [descriptors_needed, rt_layout], by simp [descriptors_needed, rt_layout],
      by simp [descriptors_needed, rt_layout], by simp [descriptors_needed, rt_layout], ?_⟩
    intro h
    have h1 := h VkDescriptorType.VK_DESCRIPTOR_TYPE_ACCELERATION_STRUCTURE_KHR
    have h2 : ds_alloc init_per_ratio
        VkDescriptorType.VK_DESCRIPTOR_TYPE_ACCELERATION_STRUCTURE_KHR = 0 := by decide
    rw [h2] at h1
    simp [descriptors_needed, rt_layout] at h1
  · intro init h
    have h1 := h VkDescriptorType.VK_DESCRIPTOR_TYPE_COMBINED_IMAGE_SAMPLER
    simp [descriptors_needed, rt_layout] at h1

/-! ## Shader binding table: bounds -/

theorem sbt_handle_size_aligned_bounds (hs k : Nat) (hhs : hs < 2 ^ 32) (hal : 2 ^ k < 2 ^ 32) :
    hs ≤ sbt_handle_size_aligned hs (2 ^ k) ∧
    sbt_handle_size_aligned hs (2 ^ k) < hs + 2 ^ k := by
  have hpos : 0 < 2 ^ k := Nat.pos_pow_of_pos _ (by decide)
  rw [sbt_handle_size_aligned_eq hs k hhs hal]
  have hdm := Nat.div_add_mod (hs + 2 ^ k - 1) (2 ^ k)
  have hml := Nat.mod_lt (hs + 2 ^ k - 1) hpos
  rw [Nat.mul_comm] at hdm
  constructor <;> omega

theorem write_bytes_length (buf bytes : List Nat) (off : Nat)
    (h : off + bytes.length ≤ buf.length) :
    (write_bytes buf off bytes).length = buf.length := by
  unfold write_bytes
  simp only [List.length_append, List.length_take, List.length_drop]
  omega

theorem read_bytes_length (buf : List Nat) (off size : Nat) (h : off + size ≤ buf.length) :
    (read_bytes buf off size).length = size := by
  unfold read_bytes
  simp only [List.length_take, List.length_drop]
  omega

/-- C15: for a 32-bit handle size and a 32-bit power-of-two alignment, `sbt_size` is
`3 * sbt_handle_size_aligned` without wrap-around, the scratch buffer keeps that
length through the handle query and is at least the `3 * handle_size` bytes the query
writes, and each of the three uploads, at offsets 0, `sbt_handle_size_aligned` and
`sbt_handle_size_aligned * 2`, ends inside the buffer and so receives exactly
`handle_size` bytes. -/
theorem sbt_uploads_inside_scratch (handle : Nat → List Nat)
    (handle_size handle_alignment k : Nat)
    (hsize : handle_size < 2 ^ 32) (halign : handle_alignment < 2 ^ 32)
    (hpow : handle_alignment = 2 ^ k) :
    sbt_size handle_size handle_alignment
      = 3 * sbt_handle_size_aligned handle_size handle_alignment ∧
    3 * handle_size ≤ sbt_size handle_size handle_alignment ∧
    (sbt_results handle handle_size handle_alignment).length
      = sbt_size handle_size handle_alignment ∧
    (sbt_handle_size_aligned handle_size handle_alignment * 2) % 2 ^ 64
      = 2 * sbt_handle_size_aligned handle_size handle_alignment ∧
    (∀ j, j < 3 →
      j * sbt_handle_size_aligned handle_size handle_alignment + handle_size
        ≤ sbt_size handle_size handle_alignment ∧
      (sbt_region handle handle_size handle_alignment j).length = handle_size) := by
  subst hpow
  obtain ⟨hle, hlt⟩ := sbt_handle_size_aligned_bounds handle_size k hsize halign
  have hsz : sbt_size handle_size (2 ^ k) = 3 * sbt_handle_size_aligned handle_size (2 ^ k) := by
    unfold sbt_size
    exact Nat.mod_eq_of_lt (by omega)
  have hlen : (sbt_results handle handle_size (2 ^ k)).length = sbt_size handle_size (2 ^ k) := by
    unfold sbt_results get_shader_group_handles
    have l0 : ((handle 0).take handle_size).length ≤ handle_size := by
      rw [List.length_take]; omega
    have l1 : ((handle 1).take handle_size).length ≤ handle_size := by
      rw [List.length_take]; omega
    have l2 : ((handle 2).take handle_size).length ≤ handle_size := by
      rw [List.length_take]; omega
    rw [write_bytes_length, write_bytes_length, write_bytes_length, List.length_replicate]
    · rw [List.length_replicate, hsz]; omega
    · rw [write_bytes_length, List.length_replicate, hsz]
      · omega
      · rw [List.length_replicate, hsz]; omega
    · rw [write_bytes_length, write_bytes_length, List.length_replicate, hsz]
      · omega
      · rw [List.length_replicate, hsz]; omega
      · rw [write_bytes_length, List.length_replicate, hsz]
        · omega
        · rw [List.length_replicate, hsz]; omega
  have hdbl : (sbt_handle_size_aligned handle_size (2 ^ k) * 2) % 2 ^ 64
      = 2 * sbt_handle_size_aligned handle_size (2 ^ k) := by
    rw [Nat.mod_eq_of_lt (by omega)]; omega
  refine ⟨hsz, by omega, hlen, hdbl, ?_⟩
  intro j hj
  have hj3 : j = 0 ∨ j = 1 ∨ j = 2 := by omega
  rcases hj3 with rfl | rfl | rfl
  · refine ⟨by omega, ?_⟩
    show (read_bytes _ 0 handle_size).length = handle_size
    exact read_bytes_length _ _ _ (by rw [hlen]; omega)
  · refine ⟨by omega, ?_⟩
    show (read_bytes _ (sbt_handle_size_aligned handle_size (2 ^ k)) handle_size).length
      = handle_size
    exact read_bytes_length _ _ _ (by rw [hlen]; omega)
  · refine ⟨by omega, ?_⟩
    show (read_bytes _ ((sbt_handle_size_aligned handle_size (2 ^ k) * 2) % 2 ^ 64)
      handle_size).length = handle_size
    exact read_bytes_length _ _ _ (by rw [hlen, hdbl]; omega)

theorem sbt_uploads_inside_scratch_witness :
    (32 < 2 ^ 32 ∧ 64 < 2 ^ 32 ∧ 64 = 2 ^ 6) ∧
    (sbt_size 32 64 = 3 * sbt_handle_size_aligned 32 64 ∧
    3 * 32 ≤ sbt_size 32 64 ∧
    (sbt_results (sample_handle 32) 32 64).length = sbt_size 32 64 ∧
    (sbt_handle_size_aligned 32 64 * 2) % 2 ^ 64 = 2 * sbt_handle_size_aligned 32 64 ∧
    (∀ j, j < 3 →
      j * sbt_handle_size_aligned 32 64 + 32 ≤ sbt_size 32 64 ∧
      (sbt_region (sample_handle 32) 32 64 j).length = 32)) :=
  ⟨by decide,
   sbt_uploads_inside_scratch (sample_handle 32) 32 64 6 (by decide) (by decide) (by decide)⟩

/-! ## Image layouts -/

/-- C16, evaluated on the commands of any recorded frame: every transition starts
from `VK_IMAGE_LAYOUT_UNDEFINED` or from the layout its image was last transitioned
to, but the UI pass declares `VK_IMAGE_LAYOUT_GENERAL` for its colour attachment while
the presentable image was just transitioned to
`VK_IMAGE_LAYOUT_COLOR_ATTACHMENT_OPTIMAL`. -/
theorem ui_pass_layout_mismatch (s : loop_state) (image_index : Nat) :
    transitions_consistent no_layouts (record_commands s image_index) = true ∧
    attachment_layouts_match no_layouts (record_commands s image_index) = false ∧
    layouts_after no_layouts ((record_commands s image_index).take 9)
        (Image.swapchain_image s.swapchain image_index)
      = some VkImageLayout.VK_IMAGE_LAYOUT_COLOR_ATTACHMENT_OPTIMAL ∧
    (record_commands s image_index).get? 9
      = some (Cmd.begin_rendering (Image.swapchain_image s.swapchain image_index)
          VkImageLayout.VK_IMAGE_LAYOUT_GENERAL) := by
  refine ⟨?_, ?_, ?_, rfl⟩
  · simp [record_commands, transitions_consistent, layout_step, no_layouts]
  · simp [record_commands, attachment_layouts_match, layout_step, no_layouts]
  · simp [record_commands, layouts_after, layout_step, no_layouts]

/-! ## Recorded frames: proofs -/

theorem frame_phase_recorded (s : loop_state) (inp : frame_input)
    (hf : inp.fence_signalled = true)
    (ha : inp.acquire_result ≠ VkResult.VK_ERROR_OUT_OF_DATE_KHR) :
    (frame_phase s inp).2 =
      [Event.wait_for_fence (s.frame_number % 2) true, Event.reset_fence (s.frame_number % 2),
       Event.begin_command_buffer (s.frame_number % 2)] ++
      Event.acquire_next_image s.swapchain (s.frame_number % 2) inp.acquire_result
          inp.image_index ::
        ((record_sequence s.frame_number s.swapchain inp.image_index).map
            (Event.record (s.frame_number % 2)) ++
          [Event.end_command_buffer (s.frame_number % 2),
           Event.queue_submit (s.frame_number % 2),
           Event.queue_present s.swapchain (s.frame_number % 2) inp.image_index
             inp.present_result]) := by
  have hrc : record_commands s inp.image_index
      = record_sequence s.frame_number s.swapchain inp.image_index := rfl
  unfold frame_phase vkw_frame_cmd_begin vkw_frame_end_and_submit
  simp only [hf, ha, if_true, Bool.true_eq_false, if_false, hrc]
  split_ifs <;> simp

theorem loop_body_recorded (s : loop_state) (inp : frame_input)
    (hf : inp.fence_signalled = true)
    (ha : inp.acquire_result ≠ VkResult.VK_ERROR_OUT_OF_DATE_KHR) :
    ∃ pre, (∀ e ∈ pre, e.is_frame_work = false) ∧
      (loop_body s inp).2 = pre ++
        Event.acquire_next_image (loop_body s inp).1.swapchain
            ((loop_body s inp).1.frame_number % 2) inp.acquire_result inp.image_index ::
          ((record_sequence (loop_body s inp).1.frame_number (loop_body s inp).1.swapchain
              inp.image_index).map (Event.record ((loop_body s inp).1.frame_number % 2)) ++
            [Event.end_command_buffer ((loop_body s inp).1.frame_number % 2),
             Event.queue_submit ((loop_body s inp).1.frame_number % 2),
             Event.queue_present (loop_body s inp).1.swapchain
               ((loop_body s inp).1.frame_number % 2) inp.image_index inp.present_result]) := by
  have hfr := frame_phase_recorded
    (imgui_phase (poll_events (resize_phase (reset_phase s)).1 inp.events).1 inp) inp hf ha
  have hfn : (loop_body s inp).1.frame_number
      = (imgui_phase (poll_events (resize_phase (reset_phase s)).1 inp.events).1
          inp).frame_number := (frame_phase_fields _ _).2.2.2.2
  have hsc : (loop_body s inp).1.swapchain
      = (imgui_phase (poll_events (resize_phase (reset_phase s)).1 inp.events).1
          inp).swapchain := (frame_phase_fields _ _).2.1
  have htr : (loop_body s inp).2 = (resize_phase (reset_phase s)).2 ++
      (poll_events (resize_phase (reset_phase s)).1 inp.events).2 ++
      (frame_phase (imgui_phase (poll_events (resize_phase (reset_phase s)).1 inp.events).1
        inp) inp).2 := rfl
  refine ⟨(resize_phase (reset_phase s)).2 ++
      (poll_events (resize_phase (reset_phase s)).1 inp.events).2 ++
      [Event.wait_for_fence ((loop_body s inp).1.frame_number % 2) true,
       Event.reset_fence ((loop_body s inp).1.frame_number % 2),
       Event.begin_command_buffer ((loop_body s inp).1.frame_number % 2)], ?_, ?_⟩
  · intro e he
    simp only [List.mem_append] at he
    rcases he with (he | he) | he
    · have := resize_phase_trace _ e he
      cases e <;> simp [Event.is_swapchain_lifecycle] at this <;> rfl
    · obtain ⟨w, h, rfl⟩ := poll_events_trace _ _ e he
      rfl
    · simp only [List.mem_cons, List.mem_singleton, List.not_mem_nil, or_false] at he
      rcases he with rfl | rfl | rfl <;> rfl
  · rw [htr, hfr, hfn, hsc]
    simp only [List.append_assoc]

/-- C12: in every iteration that gets through `begin` and whose acquire does not
report out-of-date, nothing is recorded, submitted or presented before the acquire,
and what follows the acquire is exactly: output image to GENERAL, bind pipeline, bind
descriptor set, push constants with the iteration's frame number, trace over the
output image's extent, output image to TRANSFER_SRC, acquired image to TRANSFER_DST,
copy, acquired image to COLOR_ATTACHMENT, the UI pass into the acquired image,
acquired image to PRESENT_SRC, all recorded into the iteration's slot; then the end
of recording and the submit; then the present of the acquired image. -/
theorem recorded_frame_in_order (s : loop_state) (inp : frame_input)
    (hf : inp.fence_signalled = true)
    (ha : inp.acquire_result ≠ VkResult.VK_ERROR_OUT_OF_DATE_KHR) :
    ∃ pre, (∀ e ∈ pre, e.is_frame_work = false) ∧
      (loop_body s inp).2 = pre ++
        Event.acquire_next_image (loop_body s inp).1.swapchain
            ((loop_body s inp).1.frame_number % 2) inp.acquire_result inp.image_index ::
          ((record_sequence (loop_body s inp).1.frame_number (loop_body s inp).1.swapchain
              inp.image_index).map (Event.record ((loop_body s inp).1.frame_number % 2)) ++
            [Event.end_command_buffer ((loop_body s inp).1.frame_number % 2),
             Event.queue_submit ((loop_body s inp).1.frame_number % 2),
             Event.queue_present (loop_body s inp).1.swapchain
               ((loop_body s inp).1.frame_number % 2) inp.image_index inp.present_result]) :=
  loop_body_recorded s inp hf ha

theorem recorded_frame_in_order_witness :
    (frame_ok.fence_signalled = true ∧
      frame_ok.acquire_result ≠ VkResult.VK_ERROR_OUT_OF_DATE_KHR) ∧
    ∃ pre, (∀ e ∈ pre, e.is_frame_work = false) ∧
      (loop_body initial_state frame_ok).2 = pre ++
        Event.acquire_next_image (loop_body initial_state frame_ok).1.swapchain
            ((loop_body initial_state frame_ok).1.frame_number % 2) frame_ok.acquire_result
            frame_ok.image_index ::
          ((record_sequence (loop_body initial_state frame_ok).1.frame_number
              (loop_body initial_state frame_ok).1.swapchain
              frame_ok.image_index).map
                (Event.record ((loop_body initial_state frame_ok).1.frame_number % 2)) ++
            [Event.end_command_buffer ((loop_body initial_state frame_ok).1.frame_number % 2),
             Event.queue_submit ((loop_body initial_state frame_ok).1.frame_number % 2),
             Event.queue_present (loop_body initial_state frame_ok).1.swapchain
               ((loop_body initial_state frame_ok).1.frame_number % 2) frame_ok.image_index
               frame_ok.present_result]) :=
  ⟨by decide, recorded_frame_in_order initial_state frame_ok (by decide) (by decide)⟩

/-! ## Frame counter pushed to the shaders -/

theorem pushed_frame_numbers_append (t1 t2 : List Event) :
    pushed_frame_numbers (t1 ++ t2) = pushed_frame_numbers t1 ++ pushed_frame_numbers t2 := by
  induction t1 with
  | nil => rfl
  | cons e t1 ih =>
    cases e with
    | record slot cmd =>
      cases cmd <;> simp [pushed_frame_numbers, ih]
    | _ => simp [pushed_frame_numbers, ih]

theorem pushed_frame_numbers_nil (t : List Event) (h : ∀ e ∈ t, e.is_frame_work = false) :
    pushed_frame_numbers t = [] := by
  induction t with
  | nil => rfl
  | cons e t ih =>
    have he := h e (by simp)
    have ih' := ih (fun x hx => h x (by simp [hx]))
    cases e <;> simp [Event.is_frame_work] at he <;> simp [pushed_frame_numbers, ih']

theorem loop_body_pushed (s : loop_state) (inp : frame_input) :
    pushed_frame_numbers (loop_body s inp).2 = [] ∨
    pushed_frame_numbers (loop_body s inp).2 = [(loop_body s inp).1.frame_number] := by
  by_cases hrec : inp.fence_signalled = true ∧
      inp.acquire_result ≠ VkResult.VK_ERROR_OUT_OF_DATE_KHR
  · right
    obtain ⟨pre, hpre, htr⟩ := loop_body_recorded s inp hrec.1 hrec.2
    rw [htr, pushed_frame_numbers_append, pushed_frame_numbers_nil pre hpre]
    simp [pushed_frame_numbers, record_sequence]
  · left
    apply pushed_frame_numbers_nil
    have htr : (loop_body s inp).2 = (resize_phase (reset_phase s)).2 ++
        (poll_events (resize_phase (reset_phase s)).1 inp.events).2 ++
        (frame_phase (imgui_phase (poll_events (resize_phase (reset_phase s)).1 inp.events).1
          inp) inp).2 := rfl
    rw [htr]
    intro e he
    simp only [List.mem_append] at he
    rcases he with (he | he) | he
    · have := resize_phase_trace _ e he
      cases e <;> simp [Event.is_swapchain_lifecycle] at this <;> rfl
    · obtain ⟨w, h, rfl⟩ := poll_events_trace _ _ e he
      rfl
    · unfold frame_phase vkw_frame_cmd_begin at he
      cases hf : inp.fence_signalled
      · simp [hf] at he
        subst he
        rfl
      · have ha : inp.acquire_result = VkResult.VK_ERROR_OUT_OF_DATE_KHR := by
          by_contra hne
          exact hrec ⟨hf, hne⟩
        simp [hf, ha] at he
        rcases he with rfl | rfl | rfl | rfl <;> rfl

theorem loop_body_no_click (s : loop_state) (inp : frame_input)
    (hclick : (inp.ui_visible && inp.reset_clicked) = false) :
    (loop_body s inp).1.reset_accumulation = false ∧
    (loop_body s inp).1.frame_number = (if s.reset_accumulation then 0 else s.frame_number) := by
  constructor
  · unfold loop_body
    simp only [(frame_phase_fields _ _).2.2.2.1, (imgui_phase_fields _ _).2.2.2.2.2.2, hclick,
      (poll_events_fields _ _).2.2.2.2.2.1, (resize_phase_fields _).2.2.2.1,
      (reset_phase_fields _).2.2.2.2.2.1, Bool.false_eq_true, if_false]
  · rw [loop_body_frame_number, (reset_phase_fields s).2.2.2.2.2.2]

theorem loop_iteration_counter (s : loop_state) (inp : frame_input) :
    (loop_iteration s inp).1.reset_accumulation = (loop_body s inp).1.reset_accumulation ∧
    ((loop_iteration s inp).1.aborted = true ∨
      (loop_iteration s inp).1.frame_number = ((loop_body s inp).1.frame_number + 1) % 2 ^ 32) := by
  cases h : (loop_body s inp).1.aborted <;> simp [loop_iteration, h]

theorem render_loop_aborted (s : loop_state) (inputs : List frame_input)
    (h : s.aborted = true) : (render_loop s inputs).2 = [] := by
  cases inputs with
  | nil => rfl
  | cons inp rest => simp [render_loop, h]

theorem render_loop_pushed (inputs : List frame_input) (s : loop_state)
    (hreset : s.reset_accumulation = false)
    (hclick : ∀ inp ∈ inputs, (inp.ui_visible && inp.reset_clicked) = false)
    (hwrap : s.frame_number + inputs.length ≤ 2 ^ 32) :
    (∀ n ∈ pushed_frame_numbers (render_loop s inputs).2, s.frame_number ≤ n) ∧
    List.Pairwise (fun a b => a < b) (pushed_frame_numbers (render_loop s inputs).2) := by
  induction inputs generalizing s with
  | nil => simp [render_loop, pushed_frame_numbers]
  | cons inp rest ih =>
    unfold render_loop
    split_ifs with hd
    · simp [pushed_frame_numbers]
    · have hc := hclick inp (by simp)
      obtain ⟨hb1, hb2⟩ := loop_body_no_click s inp hc
      rw [hreset] at hb2
      simp only [Bool.false_eq_true, if_false] at hb2
      obtain ⟨hi1, hi2⟩ := loop_iteration_counter s inp
      have htr := (loop_iteration_fields s inp).1
      have hpush := loop_body_pushed s inp
      rw [hb2] at hpush
      have hrest : (∀ n ∈ pushed_frame_numbers (render_loop (loop_iteration s inp).1 rest).2,
            s.frame_number + 1 ≤ n) ∧
          List.Pairwise (fun a b => a < b)
            (pushed_frame_numbers (render_loop (loop_iteration s inp).1 rest).2) := by
        rcases hi2 with hab | hfn
        · rw [render_loop_aborted _ _ hab]
          simp [pushed_frame_numbers]
        · cases rest with
          | nil => simp [render_loop, pushed_frame_numbers]
          | cons inp2 rest2 =>
            simp only [List.length_cons] at hwrap
            have hlt : s.frame_number + 1 < 2 ^ 32 := by omega
            rw [hb2, Nat.mod_eq_of_lt hlt] at hfn
            have := ih (loop_iteration s inp).1 (by rw [hi1, hb1])
              (fun x hx => hclick x (by simp [hx]))
              (by rw [hfn]; simp only [List.length_cons]; omega)
            rw [hfn] at this
            exact this
      simp only [pushed_frame_numbers_append, htr]
      constructor
      · intro n hn
        simp only [List.mem_append] at hn
        rcases hn with hn | hn
        · rcases hpush with hp | hp
          · rw [hp] at hn; simp at hn
          · rw [hp] at hn
            simp only [List.mem_singleton] at hn
            omega
        · have := hrest.1 n hn
          omega
      · rw [List.pairwise_append]
        refine ⟨?_, hrest.2, ?_⟩
        · rcases hpush with hp | hp <;> rw [hp] <;> simp
        · intro a ha b hb
          have hb' := hrest.1 b hb
          rcases hpush with hp | hp
          · rw [hp] at ha; simp at ha
          · rw [hp] at ha
            simp only [List.mem_singleton] at ha
            omega

/-- C13 as stated fails: with the reset checkbox ticked during the second frame, the
frame counters pushed for three frames recorded one after the other are 0, 1, 0. -/
theorem pushed_counter_restarts_on_reset :
    pushed_frame_numbers
      (render_loop initial_state [frame_ok, frame_reset_clicked, frame_ok]).2 = [0, 1, 0] ∧
    ¬ List.Pairwise (fun a b => a < b)
      (pushed_frame_numbers
        (render_loop initial_state [frame_ok, frame_reset_clicked, frame_ok]).2) := by
  decide

/-- C13, amended: in every run in which the reset checkbox is not ticked and the 32-bit
counter does not wrap, the frame counters pushed to the shaders are strictly
increasing from frame to frame; and an iteration entered with the reset flag set pushes
0, if it records a frame. -/
theorem pushed_counter_increases_without_reset (inputs : List frame_input) (s : loop_state)
    (hreset : s.reset_accumulation = false)
    (hclick : ∀ inp ∈ inputs, (inp.ui_visible && inp.reset_clicked) = false)
    (hwrap : s.frame_number + inputs.length ≤ 2 ^ 32) :
    List.Pairwise (fun a b => a < b) (pushed_frame_numbers (render_loop s inputs).2) ∧
    (∀ (s0 : loop_state) (inp : frame_input), s0.reset_accumulation = true →
      ∀ n ∈ pushed_frame_numbers (loop_body s0 inp).2, n = 0) := by
  refine ⟨(render_loop_pushed inputs s hreset hclick hwrap).2, ?_⟩
  intro s0 inp h0 n hn
  have hfn : (loop_body s0 inp).1.frame_number = 0 := by
    rw [loop_body_frame_number, (reset_phase_fields s0).2.2.2.2.2.2, h0]
    rfl
  rcases loop_body_pushed s0 inp with hp | hp
  · rw [hp] at hn; simp at hn
  · rw [hp, hfn] at hn
    simpa using hn

theorem pushed_counter_increases_without_reset_witness :
    (initial_state.reset_accumulation = false ∧
      (∀ inp ∈ [frame_ok, frame_out_of_date, frame_ok],
        (inp.ui_visible && inp.reset_clicked) = false) ∧
      initial_state.frame_number + [frame_ok, frame_out_of_date, frame_ok].length ≤ 2 ^ 32) ∧
    (List.Pairwise (fun a b => a < b)
        (pushed_frame_numbers
          (render_loop initial_state [frame_ok, frame_out_of_date, frame_ok]).2) ∧
    (∀ (s0 : loop_state) (inp : frame_input), s0.reset_accumulation = true →
      ∀ n ∈ pushed_frame_numbers (loop_body s0 inp).2, n = 0)) :=
  ⟨by decide,
   pushed_counter_increases_without_reset [frame_ok, frame_out_of_date, frame_ok] initial_state
     (by decide) (by decide) (by decide)⟩

/-! ## Geometry records against BLAS builds: proofs -/

theorem index_loop_spec {β : Type} (g : Nat → β) (n : Nat) (st : Nat × List (Nat × β))
    (h : st.1 + n < 2 ^ 64) :
    (List.range n).foldl (fun st j => ((st.1 + 1) % 2 ^ 64, st.2 ++ [(st.1, g j)])) st
      = (st.1 + n, st.2 ++ List.enumFrom st.1 ((List.range n).map g)) := by
  induction n with
  | zero => simp
  | succ n ih =>
    rw [List.range_succ, List.foldl_append, ih (by omega)]
    simp only [List.foldl_cons, List.foldl_nil, List.map_append, List.map_cons, List.map_nil,
      List.enumFrom_append, List.enumFrom_singleton, List.length_map, List.length_range,
      List.append_assoc]
    rw [Nat.mod_eq_of_lt (by omega)]
    rfl

theorem mesh_loop_spec {β : Type} (c : Nat → Nat) (g : Nat → Nat → β) (m : Nat)
    (st : Nat × List (Nat × β))
    (h : st.1 + ((List.range m).map c).sum < 2 ^ 64) :
    (List.range m).foldl
        (fun st i => (List.range (c i)).foldl
          (fun st j => ((st.1 + 1) % 2 ^ 64, st.2 ++ [(st.1, g i j)])) st) st
      = (st.1 + ((List.range m).map c).sum,
         st.2 ++ List.enumFrom st.1
           ((List.range m).flatMap (fun i => (List.range (c i)).map (g i)))) := by
  induction m with
  | zero => simp
  | succ m ih =>
    rw [List.range_succ, List.map_append, List.sum_append] at h
    simp only [List.map_cons, List.map_nil, List.sum_cons, List.sum_nil, Nat.add_zero] at h
    rw [List.range_succ, List.foldl_append, ih (by omega)]
    simp only [List.foldl_cons, List.foldl_nil]
    rw [index_loop_spec (g m) (c m) _ (by simp only []; omega)]
    simp only [List.map_append, List.sum_append, List.map_cons, List.map_nil, List.sum_cons,
      List.sum_nil, Nat.add_zero, List.flatMap_append, List.flatMap_cons, List.flatMap_nil,
      List.append_nil, List.enumFrom_append, List.length_flatMap, List.append_assoc,
      Nat.add_assoc]
    congr 3
    simp [Function.comp_def]

theorem total_primitives_lt (model : vkrt_model) (h : model_counts_32bit model) :
    total_primitives model < 2 ^ 64 := by
  unfold total_primitives
  have hle := sum_range_le (fun i => (model.meshes i).primitive_count) (2 ^ 32 - 1)
    model.mesh_count (fun i hi => by
      have := h.2 i hi
      show (model.meshes i).primitive_count ≤ 2 ^ 32 - 1
      omega)
  have hm := h.1
  calc ((List.range model.mesh_count).map (fun i => (model.meshes i).primitive_count)).sum
      ≤ model.mesh_count * (2 ^ 32 - 1) := hle
    _ ≤ (2 ^ 32 - 1) * (2 ^ 32 - 1) := Nat.mul_le_mul_right _ (by omega)
    _ < 2 ^ 64 := by decide

theorem primitives_in_order_length (model : vkrt_model) :
    (primitives_in_order model).length = total_primitives model := by
  unfold primitives_in_order total_primitives
  rw [List.length_flatMap]
  congr 1
  apply List.map_congr_left
  intro i _
  simp

theorem geom_nodes_loop_spec (model : vkrt_model) (h : model_counts_32bit model) :
    geom_nodes_loop model =
      (total_primitives model,
       List.enumFrom 0 ((primitives_in_order model).map (node_of model))) := by
  have hs := mesh_loop_spec (fun i => (model.meshes i).primitive_count)
    (fun i j => node_of model (i, j)) model.mesh_count (0, [])
    (by simpa using total_primitives_lt model h)
  unfold primitives_in_order
  rw [List.map_flatMap]
  simp only [List.map_map]
  simp only [Nat.zero_add, List.nil_append] at hs
  exact hs

theorem blases_loop_spec (model : vkrt_model) (h : model_counts_32bit model) :
    blases_loop model =
      (total_primitives model,
       List.enumFrom 0 ((primitives_in_order model).map (build_of model))) := by
  have hs := mesh_loop_spec (fun i => (model.meshes i).primitive_count)
    (fun i j => build_of model (i, j)) model.mesh_count (0, [])
    (by simpa using total_primitives_lt model h)
  unfold primitives_in_order
  rw [List.map_flatMap]
  simp only [List.map_map]
  simp only [Nat.zero_add, List.nil_append] at hs
  exact hs

theorem primitives_in_order_mem (model : vkrt_model) (ij : Nat × Nat)
    (h : ij ∈ primitives_in_order model) :
    ij.1 < model.mesh_count ∧ ij.2 < (model.meshes ij.1).primitive_count := by
  unfold primitives_in_order at h
  simp only [List.mem_flatMap, List.mem_map, List.mem_range] at h
  obtain ⟨i, hi, j, hj, rfl⟩ := h
  exact ⟨hi, hj⟩

/-- C14: for every model whose counts are 32-bit values, both loops end with write
index `geom_count` and write the indices 0 up to `geom_count - 1`, each once and in
order; and for every `k < geom_count` the `k`-th primitive in mesh-major order exists,
geometry record `k` is the record of that primitive and BLAS `k` is built from that
same primitive, so the record holds the device addresses of the vertex and index
buffers that BLAS was built from and the primitive's material index. -/
theorem geometry_records_match_blases (model : vkrt_model) (h : model_counts_32bit model) :
    (geom_nodes_loop model).1 = geom_count model ∧
    (blases_loop model).1 = geom_count model ∧
    (geom_nodes_loop model).2.map Prod.fst = List.range (geom_count model) ∧
    (blases_loop model).2.map Prod.fst = List.range (geom_count model) ∧
    ∀ k, k < geom_count model →
      ∃ ij, (primitives_in_order model)[k]? = some ij ∧
        ij.1 < model.mesh_count ∧ ij.2 < (model.meshes ij.1).primitive_count ∧
        (geom_nodes_loop model).2[k]? = some (k, node_of model ij) ∧
        (blases_loop model).2[k]? = some (k, build_of model ij) ∧
        (node_of model ij).vertex_buffer_address
          = (build_of model ij).vertex_buffer.device_address ∧
        (node_of model ij).index_buffer_address
          = (build_of model ij).index_buffer.device_address ∧
        (node_of model ij).material_index
          = ((model.meshes ij.1).primitives ij.2).material_index := by
  have hg := geom_count_eq_total model h
  have hn := geom_nodes_loop_spec model h
  have hb := blases_loop_spec model h
  have hlen := primitives_in_order_length model
  rw [hn, hb, hg]
  refine ⟨rfl, rfl, ?_, ?_, ?_⟩
  · simp only [List.enumFrom_map_fst, List.length_map, hlen, List.range_eq_range']
  · simp only [List.enumFrom_map_fst, List.length_map, hlen, List.range_eq_range']
  · intro k hk
    have hk' : k < (primitives_in_order model).length := by rw [hlen]; exact hk
    refine ⟨(primitives_in_order model)[k], List.getElem?_eq_getElem hk', ?_⟩
    have hmem := primitives_in_order_mem model _ (List.getElem_mem hk')
    refine ⟨hmem.1, hmem.2, ?_, ?_, rfl, rfl, rfl⟩
    · simp [List.getElem?_enumFrom, List.getElem?_eq_getElem hk']
    · simp [List.getElem?_enumFrom, List.getElem?_eq_getElem hk']

theorem geometry_records_match_blases_witness :
    model_counts_32bit sample_model ∧
    ((geom_nodes_loop sample_model).1 = geom_count sample_model ∧
    (blases_loop sample_model).1 = geom_count sample_model ∧
    (geom_nodes_loop sample_model).2.map Prod.fst = List.range (geom_count sample_model) ∧
    (blases_loop sample_model).2.map Prod.fst = List.range (geom_count sample_model) ∧
    ∀ k, k < geom_count sample_model →
      ∃ ij, (primitives_in_order sample_model)[k]? = some ij ∧
        ij.1 < sample_model.mesh_count ∧ ij.2 < (sample_model.meshes ij.1).primitive_count ∧
        (geom_nodes_loop sample_model).2[k]? = some (k, node_of sample_model ij) ∧
        (blases_loop sample_model).2[k]? = some (k, build_of sample_model ij) ∧
        (node_of sample_model ij).vertex_buffer_address
          = (build_of sample_model ij).vertex_buffer.device_address ∧
        (node_of sample_model ij).index_buffer_address
          = (build_of sample_model ij).index_buffer.device_address ∧
        (node_of sample_model ij).material_index
          = ((sample_model.meshes ij.1).primitives ij.2).material_index) :=
  ⟨sample_model_counts_32bit, geometry_records_match_blases sample_model sample_model_counts_32bit⟩

end VkRtSimple
